import Mathlib

set_option allowUnsafeReducibility true
attribute [semireducible] Rat.mul Rat.add Rat.sub Rat.div Rat.inv Rat.neg

/-!
Shallow embedding of the discount/pricing engine of the Kachidham backend
(`orderService.js` and `discountService.js`).  Machine numbers are modelled
as exact rationals (`ℚ`), JavaScript `null`/`undefined` as `Option`, and
JavaScript truthiness of the relevant fields is modelled explicitly
(`0`, `""`, `null` are falsy).  Database reads are modelled by passing an
explicit `DB` value holding the tables the engine queries; database writes
return an updated `DB`.  `Number.prototype.toFixed(2)` is modelled by
`round2` (round half up to two decimals).  Thrown JavaScript errors are
modelled with `Except String`.
-/

namespace Kachidham

/-- JS truthiness of an optional string (`null`/`undefined`/`""` are falsy). -/
def strTruthy : Option String → Bool
| none => false
| some s => s ≠ ""

/-- JS truthiness of an optional number (`null`/`undefined`/`0` are falsy). -/
def qTruthy : Option ℚ → Bool
| none => false
| some x => x ≠ 0

/-- JS truthiness of an optional natural number (`null`/`undefined`/`0` falsy). -/
def natTruthy : Option ℕ → Bool
| none => false
| some n => n ≠ 0

/-- JS `a || b` for a nullable price `a`: `0`, `null`, `undefined` fall back
to `b` (this is how `product.offerPrice || product.normalPrice` behaves). -/
def orPrice (offer : Option ℚ) (normal : ℚ) : ℚ :=
match offer with
| none => normal
| some v => if v = 0 then normal else v

/-- `Number(x).toFixed(2)` re-parsed: round half up to 2 decimal places. -/
def round2 (x : ℚ) : ℚ := (⌊100 * x + 1/2⌋ : ℤ) / 100

/-- `discountType` / `priceType` string tags, as a closed enumeration. -/
inductive DiscountType where
| PERCENTAGE
| FIXED_AMOUNT
| BUY_X_GET_Y
deriving DecidableEq, Repr

/-- A row of the `Discount` table. -/
structure Discount where
  id : String
  name : String
  discountType : DiscountType
  discountValue : ℚ
  productId : Option String := none
  categoryId : Option String := none
  subcategoryId : Option String := none
  minQuantity : Option ℕ := none
  userType : Option String := none
  minOrderAmount : Option ℚ := none
  maxDiscount : Option ℚ := none
  usageLimit : Option ℕ := none
  perUserLimit : ℕ := 1
  validFrom : ℤ := 0
  validUntil : ℤ := 0
  isActive : Bool := true
  usedCount : ℕ := 0
  totalDiscounts : ℚ := 0
  createdAt : ℤ := 0
deriving DecidableEq, Repr

/-- A row of the `DiscountUsage` ledger table. -/
structure DiscountUsage where
  discountId : String
  userId : String
  orderId : String
  discountAmount : ℚ
deriving DecidableEq, Repr

/-- A row of the `SubcategoryQuantityPrice` table (a quantity-tier rule). -/
structure QuantityPriceRule where
  subcategoryId : String
  quantity : ℕ
  priceType : DiscountType
  value : ℚ
  isActive : Bool := true
deriving DecidableEq, Repr

/-- The fields of a `Product` row that the pricing engine reads. -/
structure Product where
  id : String
  name : String := ""
  normalPrice : ℚ
  offerPrice : Option ℚ := none
  status : String := "ACTIVE"
  categoryId : Option String := none
  subcategoryId : Option String := none
deriving DecidableEq, Repr

/-- The fields of a `ProductVariant` row that the pricing engine reads. -/
structure Variant where
  id : String
  stock : ℕ
  price : Option ℚ := none
deriving DecidableEq, Repr

/-- The fields of a `User` row that the pricing engine reads. -/
structure UserRec where
  id : String
  role : String
deriving DecidableEq, Repr

/-- The fields of an `Order` row that `applyDiscount` reads and writes
(`order.user.role` is flattened into `userRole`). -/
structure OrderRec where
  id : String
  userId : String
  userRole : String
  subtotal : ℚ
  discount : ℚ := 0
  totalAmount : ℚ := 0
deriving DecidableEq, Repr

/-- The database tables the pricing engine queries, plus the evaluation
instant `now` (`new Date()` at call time). -/
structure DB where
  products : List Product := []
  variants : List Variant := []
  discounts : List Discount := []
  discountUsages : List DiscountUsage := []
  quantityRules : List QuantityPriceRule := []
  users : List UserRec := []
  orders : List OrderRec := []
  now : ℤ := 0
deriving Repr

/-! ### Generic sorting (Prisma `orderBy` / `Array.prototype.sort`)

An insertion sort by a boolean comparator `r`, where `r a b = true` means
`a` may come before `b`.  It is stable (ties keep the original order),
matching both Prisma ordering and the stable JS array sort. -/

def insertSorted (r : α → α → Bool) (a : α) : List α → List α
| [] => [a]
| b :: bs => if r a b then a :: b :: bs else b :: insertSorted r a bs

def sortBy (r : α → α → Bool) : List α → List α
| [] => []
| a :: as => insertSorted r a (sortBy r as)

/-- ASCII whitespace, for the model of `String.prototype.trim()`. -/
def isWS (c : Char) : Bool := c = ' ' || c = '\t' || c = '\n' || c = '\r'

/-- `s.trim().toLowerCase()` modelled at the character-list level (ASCII
whitespace and ASCII case folding, which covers every string the shipping
table compares against). -/
def jsNormalize (s : String) : String :=
String.mk ((((s.data.dropWhile isWS).reverse.dropWhile isWS).reverse).map Char.toLower)

namespace OrderService

/-- `orderService.js` `calculateShippingCost(state)`: default 200 when the
state is falsy, otherwise trim + lowercase and switch on the normalized
name. -/
def calculateShippingCost (state : Option String) : ℚ :=
if strTruthy state = false then 200
else
  let normalizedState := jsNormalize (state.getD "")
  if normalizedState = "tamil nadu" then 80
  else if normalizedState = "kerala" ∨ normalizedState = "karnataka" ∨
      normalizedState = "andhra pradesh" ∨ normalizedState = "telangana" then 100
  else 200

/-- Return shape of `calculateItemQuantityPrice` (the `appliedDiscount`
object `{quantity, priceType, value}` is represented by the winning rule). -/
structure QuantityPriceResult where
  originalPrice : ℚ
  finalPrice : ℚ
  totalSavings : ℚ
  pricePerItem : ℚ
  hasDiscount : Bool
  appliedDiscount : Option QuantityPriceRule
deriving DecidableEq, Repr

/-- The per-rule total of the loop body: `basePrice*quantity*(1 - value/100)`
for PERCENTAGE, `value` (a fixed total) otherwise. -/
def ruleFinalPrice (basePrice : ℚ) (quantity : ℕ) (r : QuantityPriceRule) : ℚ :=
if r.priceType = DiscountType.PERCENTAGE then basePrice * quantity * (1 - r.value / 100)
else r.value

/-- One iteration of the best-price scan in `calculateItemQuantityPrice`. -/
def qpStep (basePrice : ℚ) (quantity : ℕ) (acc : ℚ × Option QuantityPriceRule)
    (r : QuantityPriceRule) : ℚ × Option QuantityPriceRule :=
if quantity ≥ r.quantity then
  let fp := ruleFinalPrice basePrice quantity r
  if fp < acc.1 then (fp, some r) else acc
else acc

/-- `orderService.js` `calculateItemQuantityPrice`: the
`prisma.subcategoryQuantityPrice.findMany` call (filter on subcategory,
`isActive`, threshold ≤ quantity, ordered by threshold descending) is
performed on the explicit `db.quantityRules` table. -/
def calculateItemQuantityPrice (db : DB) (productId : String)
    (subcategoryId : Option String) (basePrice : ℚ) (quantity : ℕ) :
    QuantityPriceResult :=
if strTruthy subcategoryId = false then
  { originalPrice := basePrice * quantity
    finalPrice := basePrice * quantity
    totalSavings := 0
    pricePerItem := basePrice
    hasDiscount := false
    appliedDiscount := none }
else
  let subId := subcategoryId.getD ""
  let quantityPrices := sortBy (fun a b => decide (b.quantity ≤ a.quantity))
    (db.quantityRules.filter
      (fun r => decide (r.subcategoryId = subId) && r.isActive && decide (r.quantity ≤ quantity)))
  let res := quantityPrices.foldl (qpStep basePrice quantity) (basePrice * quantity, none)
  { originalPrice := basePrice * quantity
    finalPrice := res.1
    totalSavings := basePrice * quantity - res.1
    pricePerItem := res.1 / quantity
    hasDiscount := res.2.isSome
    appliedDiscount := res.2 }

end OrderService

namespace DiscountService

/-- `prisma.discountUsage.count({where: {discountId, userId}})`. -/
def userUsageCount (db : DB) (discountId : String) (uid : Option String) : ℕ :=
(db.discountUsages.filter
  (fun du => decide (du.discountId = discountId) && decide (some du.userId = uid))).length

/-- The `where` clause of `getProductDiscounts`: scope `OR` (Prisma equality,
where a `null` product field matches discounts whose same field is `null`),
`isActive`, and the activity window. -/
def candidateFilter (product : Product) (productId : String) (now : ℤ) (d : Discount) : Bool :=
(decide (d.productId = some productId) ||
 decide (d.categoryId = product.categoryId) ||
 decide (d.subcategoryId = product.subcategoryId) ||
 (decide (d.productId = none) && decide (d.categoryId = none) && decide (d.subcategoryId = none)))
&& d.isActive && decide (d.validFrom ≤ now) && decide (now ≤ d.validUntil)

/-- `orderBy: [{discountValue: desc}, {createdAt: desc}]` as a comparator. -/
def discountOrderCmp (a b : Discount) : Bool :=
decide (b.discountValue < a.discountValue) ||
(decide (a.discountValue = b.discountValue) && decide (b.createdAt ≤ a.createdAt))

/-- The per-candidate eligibility filter of `getProductDiscounts`: user-role
check and per-user-limit check (both only when a user id is supplied), and
the global usage cap. -/
def eligibleForUser (db : DB) (uid : Option String) (d : Discount) : Bool :=
(if strTruthy d.userType && decide (d.userType ≠ some "ALL") && strTruthy uid then
   match db.users.find? (fun u => decide (some u.id = uid)) with
   | some user => decide (some user.role = d.userType)
   | none => false
 else true)
&&
(if decide (0 < d.perUserLimit) && strTruthy uid then
   decide (userUsageCount db d.id uid < d.perUserLimit)
 else true)
&&
(if natTruthy d.usageLimit then decide (d.usedCount < d.usageLimit.getD 0) else true)

/-- `discountService.js` `getProductDiscounts(productId, userId)`. -/
def getProductDiscounts (db : DB) (productId : String) (userId : Option String) :
    Except String (List Discount) :=
match db.products.find? (fun p => decide (p.id = productId)) with
| none => .error "Product not found"
| some product =>
  let discounts := sortBy discountOrderCmp
    (db.discounts.filter (candidateFilter product productId db.now))
  .ok (discounts.filter (eligibleForUser db userId))

/-- The `discount` object returned by a successful `validateDiscount`
(the nested product/category/subcategory objects are omitted: nothing in the
pricing engine reads them). -/
structure ValidatedDiscount where
  id : String
  name : String
  discountType : DiscountType
  discountValue : ℚ
  maxDiscount : Option ℚ
  discountAmount : ℚ
  maxDiscountReached : Bool
  minOrderAmount : ℚ
deriving DecidableEq, Repr

structure ValidationResult where
  isValid : Bool
  message : Option String := none
  discount : Option ValidatedDiscount := none
deriving DecidableEq, Repr

/-- The lookup of `validateDiscount`: `findFirst({name: code, isActive: true})`
first, then `findUnique({id: code})`. -/
def findDiscountByCode (db : DB) (code : String) : Option Discount :=
match db.discounts.find? (fun d => decide (d.name = code) && d.isActive) with
| some d => some d
| none => db.discounts.find? (fun d => decide (d.id = code))

/-- `discountService.js` `validateDiscount(code, userId, orderAmount)`.
`parseFloat(orderAmount) || 0` is the identity in this exact-number model. -/
def validateDiscount (db : DB) (code : String) (uid : Option String)
    (orderAmount : ℚ) : ValidationResult :=
match findDiscountByCode db code with
| none => { isValid := false, message := some "Invalid discount code" }
| some discount =>
  if discount.isActive = false then
    { isValid := false, message := some "Discount is not active" }
  else if db.now < discount.validFrom then
    { isValid := false, message := some "Discount not yet valid" }
  else if db.now > discount.validUntil then
    { isValid := false, message := some "Discount has expired" }
  else if natTruthy discount.usageLimit && decide (discount.usageLimit.getD 0 ≤ discount.usedCount) then
    { isValid := false, message := some "Discount usage limit reached" }
  else if decide (0 < discount.perUserLimit) && strTruthy uid &&
      decide (discount.perUserLimit ≤ userUsageCount db discount.id uid) then
    { isValid := false, message := some "You have reached the usage limit for this discount" }
  else if orderAmount < discount.minOrderAmount.getD 0 then
    { isValid := false
      message := some ("Minimum order amount of ₹" ++ toString (discount.minOrderAmount.getD 0) ++ " required") }
  else
    let base : ValidatedDiscount :=
      { id := discount.id
        name := discount.name
        discountType := discount.discountType
        discountValue := discount.discountValue
        maxDiscount := discount.maxDiscount
        discountAmount := 0
        maxDiscountReached := false
        minOrderAmount := discount.minOrderAmount.getD 0 }
    if discount.discountType = DiscountType.PERCENTAGE then
      let uncapped := orderAmount * discount.discountValue / 100
      if qTruthy discount.maxDiscount && decide (discount.maxDiscount.getD 0 < uncapped) then
        { isValid := true
          discount := some { base with discountAmount := discount.maxDiscount.getD 0, maxDiscountReached := true } }
      else
        { isValid := true, discount := some { base with discountAmount := uncapped } }
    else
      { isValid := true, discount := some { base with discountAmount := discount.discountValue } }

end DiscountService

/-- String tag of a `discountType` (JS stores the enum as a string). -/
def DiscountType.tag : DiscountType → String
| .PERCENTAGE => "PERCENTAGE"
| .FIXED_AMOUNT => "FIXED_AMOUNT"
| .BUY_X_GET_Y => "BUY_X_GET_Y"

/-- A cart line as consumed by `calculateCartDiscounts` /
`getBestProductDiscount` (`productId` is `Option` because the items built by
`calculateFinalAmountWithDiscounts` carry no `productId` property). -/
structure CartItemInput where
  productId : Option String := none
  product : Product
  quantity : ℕ
  price : ℚ := 0
deriving DecidableEq, Repr

namespace DiscountService

/-- The `{...discount, calculatedAmount, finalPrice}` object produced by the
best-discount scans. -/
structure BestDiscount where
  discount : Discount
  calculatedAmount : ℚ
  finalPrice : ℚ
deriving DecidableEq, Repr

/-- The `continue` guard of `getBestProductDiscount`:
`discount.minQuantity && cartItem.quantity < discount.minQuantity`. -/
def bdSkip (quantity : ℕ) (d : Discount) : Bool :=
natTruthy d.minQuantity && decide (quantity < d.minQuantity.getD 0)

/-- The candidate amount of `getBestProductDiscount`, computed from the
line's total price (`null` as a comparison operand behaves as `0`, hence
`minQuantity.getD 0` in the BUY_X_GET_Y branch). -/
def bdAmount (totalPrice : ℚ) (quantity : ℕ) (d : Discount) : ℚ :=
match d.discountType with
| .PERCENTAGE =>
  let a := totalPrice * d.discountValue / 100
  if qTruthy d.maxDiscount then min a (d.maxDiscount.getD 0) else a
| .FIXED_AMOUNT => min d.discountValue totalPrice
| .BUY_X_GET_Y => if d.minQuantity.getD 0 ≤ quantity then d.discountValue else 0

/-- One iteration of `getBestProductDiscount`'s loop (strict improvement
only: ties keep the earlier candidate). -/
def bdStep (totalPrice : ℚ) (quantity : ℕ) (acc : Option BestDiscount × ℚ)
    (d : Discount) : Option BestDiscount × ℚ :=
if bdSkip quantity d then acc
else
  let a := bdAmount totalPrice quantity d
  if acc.2 < a then
    (some { discount := d, calculatedAmount := a, finalPrice := max 0 (totalPrice - a) }, a)
  else acc

/-- `discountService.js` `getBestProductDiscount(discounts, cartItem)`. -/
def getBestProductDiscount (discounts : List Discount) (cartItem : CartItemInput) :
    Option BestDiscount :=
let unitPrice := orPrice cartItem.product.offerPrice cartItem.product.normalPrice
let totalPrice := unitPrice * cartItem.quantity
(discounts.foldl (bdStep totalPrice cartItem.quantity) (none, 0)).1

/-- One applied-discount descriptor pushed by `calculateCartDiscounts`. -/
structure AppliedDiscount where
  type : String
  code : Option String := none
  name : Option String := none
  productId : Option String := none
  productName : Option String := none
  discountType : Option DiscountType := none
  discountValue : ℚ := 0
  amount : ℚ := 0
  description : String := ""
deriving DecidableEq, Repr

/-- Return shape of `calculateCartDiscounts`. -/
structure CartResult where
  subtotal : ℚ
  totalDiscount : ℚ
  finalTotal : ℚ
  appliedDiscounts : List AppliedDiscount
  errors : Option (List String) := none
  discountCode : Option String := none
deriving DecidableEq, Repr

/-- The subtotal reduce of `calculateCartDiscounts`:
`Σ (offerPrice || normalPrice) * quantity`. -/
def cartSubtotal (cartItems : List CartItemInput) : ℚ :=
cartItems.foldl
  (fun sum item => sum + orPrice item.product.offerPrice item.product.normalPrice * item.quantity) 0

/-- The auto-best loop of `calculateCartDiscounts` (no-coupon mode): per
item, resolve the product's discounts and add the best one's amount.  A
missing product makes `getProductDiscounts` throw, which propagates. -/
def autoApplyItems (db : DB) (uid : Option String) :
    List CartItemInput → Except String (ℚ × List AppliedDiscount)
| [] => .ok (0, [])
| item :: rest => do
  let productDiscounts ←
    match item.productId with
    | some pid => getProductDiscounts db pid uid
    | none => Except.error "Product not found"
  let (restAmt, restApplied) ← autoApplyItems db uid rest
  if productDiscounts.isEmpty then
    .ok (restAmt, restApplied)
  else
    match getBestProductDiscount productDiscounts item with
    | none => .ok (restAmt, restApplied)
    | some best =>
      .ok (best.calculatedAmount + restAmt,
        { type := "PRODUCT_LEVEL"
          productId := item.productId
          productName := some item.product.name
          discountType := some best.discount.discountType
          discountValue := best.discount.discountValue
          amount := best.calculatedAmount
          description := "Automatic best offer applied" } :: restApplied)

/-- `discountService.js` `calculateCartDiscounts(cartItems, userId,
discountCode)` before the final `toFixed(2)` rounding of the three money
fields (the single return-site rounding is applied by the wrapper below). -/
def calculateCartDiscountsRaw (db : DB) (cartItems : List CartItemInput)
    (userId : Option String) (discountCode : Option String) :
    Except String CartResult :=
let subtotal := cartSubtotal cartItems
if strTruthy discountCode then
  let code := discountCode.getD ""
  let validation := validateDiscount db code userId subtotal
  match validation.discount, validation.isValid with
  | some d, true =>
    .ok { subtotal
          totalDiscount := d.discountAmount
          finalTotal := max 0 (subtotal - d.discountAmount)
          appliedDiscounts := [{ type := "ORDER_LEVEL"
                                 code := some code
                                 name := some d.name
                                 discountType := some d.discountType
                                 discountValue := d.discountValue
                                 amount := d.discountAmount
                                 description := "User applied coupon" }]
          errors := none
          discountCode }
  | _, _ =>
    .ok { subtotal
          totalDiscount := 0
          finalTotal := max 0 (subtotal - 0)
          appliedDiscounts := []
          errors := some [validation.message.getD ""]
          discountCode }
else do
  let (totalDiscount, appliedDiscounts) ← autoApplyItems db userId cartItems
  .ok { subtotal
        totalDiscount
        finalTotal := max 0 (subtotal - totalDiscount)
        appliedDiscounts
        errors := none
        discountCode := none }

/-- The `Number(x.toFixed(2))` rounding at the return sites. -/
def roundCartResult (r : CartResult) : CartResult :=
{ r with subtotal := round2 r.subtotal
         totalDiscount := round2 r.totalDiscount
         finalTotal := round2 r.finalTotal }

/-- `discountService.js` `calculateCartDiscounts` as returned to callers. -/
def calculateCartDiscounts (db : DB) (cartItems : List CartItemInput)
    (userId : Option String) (discountCode : Option String) :
    Except String CartResult :=
(calculateCartDiscountsRaw db cartItems userId discountCode).map roundCartResult

/-- Per-candidate amount of `calculateProductDiscount` (computed on the unit
price, BUY_X_GET_Y treated like FIXED_AMOUNT). -/
def pdAmount (price : ℚ) (d : Discount) : ℚ :=
match d.discountType with
| .PERCENTAGE =>
  let a := price * d.discountValue / 100
  if qTruthy d.maxDiscount && decide (d.maxDiscount.getD 0 < a) then d.maxDiscount.getD 0 else a
| .FIXED_AMOUNT => min d.discountValue price
| .BUY_X_GET_Y => min d.discountValue price

/-- Return shape of `calculateProductDiscount`. -/
structure ProductDiscountResult where
  hasDiscount : Bool
  originalPrice : ℚ
  finalPrice : ℚ
  discountAmount : ℚ
  applicableDiscounts : List BestDiscount
  bestDiscount : Option BestDiscount := none
deriving DecidableEq, Repr

/-- `discountService.js` `calculateProductDiscount(productId, userId)`:
maps each eligible discount to its per-unit amount, sorts by amount
descending (stably) and takes the head as the best discount. -/
def calculateProductDiscount (db : DB) (productId : String) (uid : Option String) :
    Except String ProductDiscountResult :=
match db.products.find? (fun p => decide (p.id = productId)) with
| none => .error "Product not found"
| some product => do
  let applicableDiscounts ← getProductDiscounts db productId uid
  let price := orPrice product.offerPrice product.normalPrice
  if applicableDiscounts.isEmpty then
    .ok { hasDiscount := false
          originalPrice := price
          finalPrice := price
          discountAmount := 0
          applicableDiscounts := [] }
  else
    let discountsWithAmount := applicableDiscounts.map
      (fun d => ({ discount := d
                   calculatedAmount := pdAmount price d
                   finalPrice := max 0 (price - pdAmount price d) } : BestDiscount))
    let sorted := sortBy (fun a b => decide (b.calculatedAmount ≤ a.calculatedAmount)) discountsWithAmount
    let best := sorted.head?
    .ok { hasDiscount := true
          originalPrice := price
          finalPrice := ((best.map (fun b => b.finalPrice)).getD price)
          discountAmount := ((best.map (fun b => b.calculatedAmount)).getD 0)
          applicableDiscounts := sorted
          bestDiscount := best }

/-- The fixed rate table of `discountService.js` `calculateShippingCost`. -/
def shippingRates : List (String × ℚ) :=
[("Tamil Nadu", 80), ("Kerala", 100), ("Karnataka", 100),
 ("Andhra Pradesh", 100), ("Telangana", 100), ("Other", 200)]

/-- `discountService.js` `calculateShippingCost(state)`: a raw property
lookup `shippingRates[state] || shippingRates.Other` — no trimming, no
case normalization. -/
def calculateShippingCost (state : Option String) : ℚ :=
match state with
| none => 200
| some s => (shippingRates.lookup s).getD 200

/-- A cart line as passed to `calculateFinalAmountWithDiscounts`. -/
structure SimpleCartItem where
  productId : String
  quantity : ℕ
  price : ℚ := 0
deriving DecidableEq, Repr

structure CartData where
  cartItems : List SimpleCartItem
  shippingState : Option String := none
deriving DecidableEq, Repr

/-- An applied-discount entry of `calculateFinalAmountWithDiscounts` (the
source stores the whole discount object in the `discount` property; only its
`id` is read downstream, in the usage-recording loop, so the id is kept). -/
structure AppliedFinal where
  type : String
  productId : Option String := none
  discountId : Option String := none
  amount : ℚ
deriving DecidableEq, Repr

structure FinalAmountData where
  subtotal : ℚ
  totalDiscount : ℚ
  shipping : ℚ
  finalTotal : ℚ
  appliedDiscounts : List AppliedFinal
  errors : Option (List String) := none
  discountCode : Option String := none
deriving DecidableEq, Repr

structure FinalAmountResult where
  success : Bool
  data : FinalAmountData
deriving DecidableEq, Repr

/-- The `itemsWithDetails` entries built by
`calculateFinalAmountWithDiscounts`. -/
structure ResolvedItem where
  product : Product
  price : ℚ
  quantity : ℕ
  itemTotal : ℚ
deriving DecidableEq, Repr

/-- The subtotal loop of `calculateFinalAmountWithDiscounts`: look every
cart item's product up (throwing on a missing product) and price it at
`offerPrice || normalPrice`. -/
def resolveCartItems (db : DB) : List SimpleCartItem → Except String (List ResolvedItem)
| [] => .ok []
| item :: rest =>
  match db.products.find? (fun p => decide (p.id = item.productId)) with
  | none => .error ("Product " ++ item.productId ++ " not found")
  | some product => do
    let restResolved ← resolveCartItems db rest
    let price := orPrice product.offerPrice product.normalPrice
    .ok ({ product := product
           price := price
           quantity := item.quantity
           itemTotal := price * item.quantity } :: restResolved)

def resolvedSubtotal (items : List ResolvedItem) : ℚ :=
items.foldl (fun s it => s + it.itemTotal) 0

/-- The product-level loop of the effective (second)
`calculateFinalAmountWithDiscounts`: for each item the per-unit best
discount amount from `calculateProductDiscount`, multiplied by the item's
quantity. -/
def productLevelDiscounts (db : DB) (uid : Option String) :
    List ResolvedItem → Except String (ℚ × List AppliedFinal)
| [] => .ok (0, [])
| item :: rest => do
  let pd ← calculateProductDiscount db item.product.id uid
  let (restAmt, restApplied) ← productLevelDiscounts db uid rest
  if pd.hasDiscount then
    let itemDiscount := pd.discountAmount * item.quantity
    .ok (itemDiscount + restAmt,
      { type := ((pd.bestDiscount.map (fun b => b.discount.discountType.tag)).getD "")
        productId := some item.product.id
        discountId := pd.bestDiscount.map (fun b => b.discount.id)
        amount := itemDiscount } :: restApplied)
  else
    .ok (restAmt, restApplied)

/-- The effective `calculateFinalAmountWithDiscounts(cartData, userId,
discountCode)` — the SECOND of the two methods of that name in class
`DiscountService`; under JavaScript class semantics the later definition
shadows the earlier one, so this is the method callers invoke.  Before the
return-site `toFixed(2)` rounding (applied by the wrapper below). -/
def calculateFinalAmountWithDiscountsRaw (db : DB) (cartData : CartData)
    (uid : Option String) (discountCode : Option String) :
    Except String FinalAmountResult := do
  let items ← resolveCartItems db cartData.cartItems
  let subtotal := resolvedSubtotal items
  let dce : ℚ × List AppliedFinal × List String :=
    if strTruthy discountCode then
      let validation := validateDiscount db (discountCode.getD "") uid subtotal
      match validation.discount, validation.isValid with
      | some d, true =>
        (d.discountAmount,
         [({ type := "CODE", discountId := some d.id, amount := d.discountAmount } : AppliedFinal)],
         ([] : List String))
      | _, _ => (0, [], [validation.message.getD ""])
    else (0, [], [])
  let pp ← productLevelDiscounts db uid items
  let totalDiscount := dce.1 + pp.1
  let shippingCost := calculateShippingCost cartData.shippingState
  let finalTotal := max 0 (subtotal - totalDiscount + shippingCost)
  .ok { success := true
        data := { subtotal
                  totalDiscount
                  shipping := shippingCost
                  finalTotal
                  appliedDiscounts := dce.2.1 ++ pp.2
                  errors := if dce.2.2.isEmpty then none else some dce.2.2
                  discountCode } }

/-- `parseFloat(x.toFixed(2))` on the four money fields of the result. -/
def roundFinalData (r : FinalAmountResult) : FinalAmountResult :=
{ r with data := { r.data with subtotal := round2 r.data.subtotal
                               totalDiscount := round2 r.data.totalDiscount
                               shipping := round2 r.data.shipping
                               finalTotal := round2 r.data.finalTotal } }

/-- The effective `calculateFinalAmountWithDiscounts` as returned to
callers (this is what `orderService.verifyAndCreateOrder`, the
order-confirmation path, invokes). -/
def calculateFinalAmountWithDiscounts (db : DB) (cartData : CartData)
    (uid : Option String) (discountCode : Option String) :
    Except String FinalAmountResult :=
(calculateFinalAmountWithDiscountsRaw db cartData uid discountCode).map roundFinalData

/-- The FIRST (shadowed, never dispatched) `calculateFinalAmountWithDiscounts`
of class `DiscountService`: delegates the whole discount decision to
`calculateCartDiscounts` (note: the items it passes carry no `productId`
property, and its applied-discount descriptors are converted field-for-field
into the `AppliedFinal` shape of the final result). -/
def calculateFinalAmountWithDiscountsFirst (db : DB) (cartData : CartData)
    (uid : Option String) (discountCode : Option String) :
    Except String FinalAmountResult := do
  let items ← resolveCartItems db cartData.cartItems
  let subtotal := resolvedSubtotal items
  let discountResult ← calculateCartDiscounts db
    (items.map (fun it => ({ productId := none
                             product := it.product
                             quantity := it.quantity
                             price := it.price } : CartItemInput)))
    uid discountCode
  let shippingCost := calculateShippingCost cartData.shippingState
  let finalTotal := max 0 (subtotal - discountResult.totalDiscount + shippingCost)
  .ok { success := true
        data := { subtotal := round2 subtotal
                  totalDiscount := discountResult.totalDiscount
                  shipping := round2 shippingCost
                  finalTotal := round2 finalTotal
                  appliedDiscounts := discountResult.appliedDiscounts.map
                    (fun a => { type := a.type, productId := a.productId
                                discountId := none, amount := a.amount })
                  errors := discountResult.errors
                  discountCode } }

/-- `prisma.order.update` applied to one order row. -/
def updateOrderRow (db : DB) (orderId : String) (f : OrderRec → OrderRec) : DB :=
{ db with orders := db.orders.map (fun o => if o.id = orderId then f o else o) }

/-- `prisma.discount.update` applied to one discount row. -/
def updateDiscountRow (db : DB) (discountId : String) (f : Discount → Discount) : DB :=
{ db with discounts := db.discounts.map (fun d => if d.id = discountId then f d else d) }

/-- The tail of `applyDiscount` once the order row is loaded: the
user-eligibility and minimum-amount checks, the amount computation, and the
three writes (order update, usage-row create, counter increments). -/
def applyDiscountWithOrder (db : DB) (orderId discountId userId : String)
    (discount : Discount) (order : OrderRec) : Except String (DB × DiscountUsage) :=
if strTruthy discount.userType && decide (some order.userRole ≠ discount.userType) then
  .error "You are not eligible for this discount"
else if order.subtotal < discount.minOrderAmount.getD 0 then
  .error ("Minimum order amount of ₹" ++ toString (discount.minOrderAmount.getD 0) ++
    " required for this discount")
else
  let discountAmount :=
    if discount.discountType = DiscountType.PERCENTAGE then
      let a := order.subtotal * discount.discountValue / 100
      if qTruthy discount.maxDiscount && decide (discount.maxDiscount.getD 0 < a) then
        discount.maxDiscount.getD 0
      else a
    else discount.discountValue
  let db1 := updateOrderRow db orderId
    (fun o => { o with discount := o.discount + discountAmount
                       totalAmount := o.totalAmount - discountAmount })
  let usage : DiscountUsage :=
    { discountId := discountId, userId := userId, orderId := orderId
      discountAmount := discountAmount }
  let db2 := { db1 with discountUsages := usage :: db1.discountUsages }
  let db3 := updateDiscountRow db2 discountId
    (fun d => { d with usedCount := d.usedCount + 1
                       totalDiscounts := d.totalDiscounts + discountAmount })
  .ok (db3, usage)

/-- The body of `applyDiscount` once the discount row is loaded: the
activity, window, usage-limit, per-user-limit and duplicate-usage checks,
then the order lookup. -/
def applyDiscountFound (db : DB) (orderId discountId userId : String)
    (discount : Discount) : Except String (DB × DiscountUsage) :=
if discount.isActive = false then .error "Discount is not active"
else if db.now < discount.validFrom ∨ discount.validUntil < db.now then
  .error "Discount is not valid at this time"
else if natTruthy discount.usageLimit && decide (discount.usageLimit.getD 0 ≤ discount.usedCount) then
  .error "Discount usage limit reached"
else if decide (0 < discount.perUserLimit) &&
    decide (discount.perUserLimit ≤ userUsageCount db discountId (some userId)) then
  .error "You have reached the usage limit for this discount"
else if (db.discountUsages.find?
    (fun du => decide (du.discountId = discountId) && decide (du.orderId = orderId))).isSome then
  .error "Discount has already been applied to this order"
else match db.orders.find? (fun o => decide (o.id = orderId)) with
| none => .error "Order not found"
| some order => applyDiscountWithOrder db orderId discountId userId discount order

/-- `discountService.js` `applyDiscount(orderId, discountId, userId)`:
validates, then updates the order, creates the usage row and increments the
discount's counters.  The updated database and the created usage row are
returned.  (The body is split into the two named stage functions above.) -/
def applyDiscount (db : DB) (orderId discountId userId : String) :
    Except String (DB × DiscountUsage) :=
match db.discounts.find? (fun d => decide (d.id = discountId)) with
| none => .error "Discount not found"
| some discount => applyDiscountFound db orderId discountId userId discount

end DiscountService

namespace OrderService

/-- Modelled from the spec: the Prisma schema (the `DiscountUsage` model)
is code of this repository that is not under `src/`.  Spec §3 states the
invariant "at most one usage row per (discount, order) pair" and §5 mandates
"a unique constraint on (discountId, orderId)", so the modelled
`prisma.discountUsage.create` rejects a duplicate (discount, order) pair. -/
def discountUsageCreate (db : DB) (row : DiscountUsage) : Except String DB :=
if db.discountUsages.any
    (fun du => decide (du.discountId = row.discountId) && decide (du.orderId = row.orderId)) then
  .error "Unique constraint failed on (discountId, orderId)"
else
  .ok { db with discountUsages := row :: db.discountUsages }

/-- One iteration of the usage-recording loop of
`orderService.verifyAndCreateOrder`: for an applied discount with a truthy
`discount?.id`, create the usage row and then increment the discount's
counters, with the whole body in a `try/catch` that swallows failures (so a
failed create also skips the counter increments). -/
def recordStep (userId orderId : String) (db : DB)
    (ad : DiscountService.AppliedFinal) : DB :=
if strTruthy ad.discountId then
  match discountUsageCreate db
      { discountId := ad.discountId.getD "", userId := userId, orderId := orderId
        discountAmount := ad.amount } with
  | .error _ => db
  | .ok db' =>
    DiscountService.updateDiscountRow db' (ad.discountId.getD "")
      (fun d => { d with usedCount := d.usedCount + 1
                         totalDiscounts := d.totalDiscounts + ad.amount })
else db

/-- The discount-usage recording loop of `orderService.verifyAndCreateOrder`
(the order-confirmation path). -/
def recordDiscountUsages (db : DB) (userId orderId : String)
    (applied : List DiscountService.AppliedFinal) : DB :=
applied.foldl (recordStep userId orderId) db

/-- One entry of the `orderItems` argument of `calculateOrderTotals`. -/
structure OrderItemInput where
  productId : String
  quantity : ℕ
  productVariantId : Option String := none
deriving DecidableEq, Repr

/-- One entry of the `itemsWithPricing` array built by
`calculateOrderTotals`. -/
structure ItemWithPricing where
  productId : String
  quantity : ℕ
  productVariantId : Option String
  product : Product
  basePrice : ℚ
  quantityPricing : QuantityPriceResult
  itemTotal : ℚ
  itemSavings : ℚ
deriving DecidableEq, Repr

/-- Return shape of `calculateOrderTotals`. -/
structure OrderTotals where
  subtotal : ℚ
  quantitySavings : ℚ
  discountAmount : ℚ
  appliedDiscounts : List DiscountService.AppliedDiscount
  shippingCost : ℚ
  shippingState : Option String
  totalAmount : ℚ
  items : List ItemWithPricing
  hasQuantityDiscounts : Bool
  discountError : Option String
deriving DecidableEq, Repr

/-- The per-item loop of `calculateOrderTotals`: validate the item, look up
the product (must exist and be ACTIVE), resolve an optional variant (stock
check; a non-null variant price — even `0` — overrides the product price,
the check there is `!== null/undefined`, not truthiness), then apply
quantity-tier pricing. -/
def resolveOrderItems (db : DB) : List OrderItemInput → Except String (List ItemWithPricing)
| [] => .ok []
| item :: rest =>
  if item.productId = "" ∨ item.quantity = 0 then
    .error "Invalid order item: productId and quantity are required"
  else match db.products.find? (fun p => decide (p.id = item.productId)) with
  | none => .error ("Product not found: " ++ item.productId)
  | some product =>
    if product.status ≠ "ACTIVE" then
      .error ("Product " ++ product.id ++ " is not available for purchase")
    else do
      let variantPrice ←
        if strTruthy item.productVariantId then
          match db.variants.find? (fun v => decide (some v.id = item.productVariantId)) with
          | none => Except.error ("Product variant not found: " ++ item.productVariantId.getD "")
          | some variant =>
            if variant.stock < item.quantity then
              Except.error ("Insufficient stock for variant " ++ item.productVariantId.getD "" ++
                ". Available: " ++ toString variant.stock ++
                ", Requested: " ++ toString item.quantity)
            else
              Except.ok variant.price
        else
          Except.ok none
      let basePrice :=
        match variantPrice with
        | some p => p
        | none => orPrice product.offerPrice product.normalPrice
      let qp := calculateItemQuantityPrice db product.id product.subcategoryId basePrice item.quantity
      let restItems ← resolveOrderItems db rest
      .ok ({ productId := item.productId
             quantity := item.quantity
             productVariantId := item.productVariantId
             product := product
             basePrice := basePrice
             quantityPricing := qp
             itemTotal := qp.finalPrice
             itemSavings := qp.totalSavings } :: restItems)

/-- `orderService.js` `calculateOrderTotals(orderItems, discountCode,
shippingState, userId)` before the return-site `toFixed(2)` rounding (the
wrapper below applies it).  Note: `totalAmount` is computed as
`subtotal - discountAmount + shippingCost` with NO `Math.max(0, ·)` floor. -/
def calculateOrderTotalsRaw (db : DB) (orderItems : List OrderItemInput)
    (discountCode : Option String) (shippingState : Option String)
    (userId : Option String) : Except String OrderTotals :=
if orderItems.isEmpty then
  .error "Order items are required and must be a non-empty array"
else do
  let items ← resolveOrderItems db orderItems
  let subtotal := items.foldl (fun s it => s + it.itemTotal) 0
  let quantitySavings := items.foldl (fun s it => s + it.itemSavings) 0
  let dae : ℚ × List DiscountService.AppliedDiscount × Option String :=
    if strTruthy discountCode then
      match DiscountService.calculateCartDiscounts db
          (items.map (fun it => ({ productId := some it.productId
                                   product := it.product
                                   quantity := it.quantity } : CartItemInput)))
          userId discountCode with
      | .ok res =>
        (res.totalDiscount, res.appliedDiscounts,
         match res.errors with
         | some errs => some (String.intercalate ", " errs)
         | none => none)
      | .error e => (0, [], some e)
    else (0, [], none)
  let shippingCost := calculateShippingCost shippingState
  let totalAmount := subtotal - dae.1 + shippingCost
  .ok { subtotal
        quantitySavings
        discountAmount := dae.1
        appliedDiscounts := dae.2.1
        shippingCost
        shippingState := if strTruthy shippingState then shippingState else none
        totalAmount
        items
        hasQuantityDiscounts := decide (0 < quantitySavings)
        discountError := dae.2.2 }

/-- The `parseFloat(x.toFixed(2))` rounding at the return site. -/
def roundOrderTotals (t : OrderTotals) : OrderTotals :=
{ t with subtotal := round2 t.subtotal
         quantitySavings := round2 t.quantitySavings
         discountAmount := round2 t.discountAmount
         shippingCost := round2 t.shippingCost
         totalAmount := round2 t.totalAmount }

/-- `orderService.js` `calculateOrderTotals` as returned to callers. -/
def calculateOrderTotals (db : DB) (orderItems : List OrderItemInput)
    (discountCode : Option String) (shippingState : Option String)
    (userId : Option String) : Except String OrderTotals :=
(calculateOrderTotalsRaw db orderItems discountCode shippingState userId).map roundOrderTotals

end OrderService

/-! ### Helper definitions used in theorem statements -/

deriving instance DecidableEq for Except

deriving instance DecidableEq for DB

/-- `true` exactly on a successful `Except` result. -/
def isOkB : Except ε α → Bool
| .ok _ => true
| .error _ => false

/-- `prisma.discount.findUnique({where: {id}})`. -/
def discountById (db : DB) (id : String) : Option Discount :=
db.discounts.find? (fun x => decide (x.id = id))

/-- Whether a (discount, order) pair already has a usage row. -/
def pairMem (db : DB) (discountId orderId : String) : Bool :=
db.discountUsages.any
  (fun du => decide (du.discountId = discountId) && decide (du.orderId = orderId))

/-- The per-unit best-discount amount a product resolves to
(`calculateProductDiscount(...).discountAmount`, `0` if the call throws). -/
def productDiscountAmount (db : DB) (pid : String) (uid : Option String) : ℚ :=
match DiscountService.calculateProductDiscount db pid uid with
| .ok pd => pd.discountAmount
| .error _ => 0

/-- The candidate-scope predicate following the words of the claim (C8):
the discount's scope matches the product id, the product's category id, the
product's subcategory id, or is sitewide (all three scope fields unset).
Stated without existentials: "matches its category id" means the product HAS
a category id and the discount names that same id. -/
def specScopeMatches (product : Product) (d : Discount) : Prop :=
d.productId = some product.id ∨
(product.categoryId.isSome = true ∧ d.categoryId = product.categoryId) ∨
(product.subcategoryId.isSome = true ∧ d.subcategoryId = product.subcategoryId) ∨
(d.productId = none ∧ d.categoryId = none ∧ d.subcategoryId = none)

instance (product : Product) (d : Discount) : Decidable (specScopeMatches product d) := by
  unfold specScopeMatches
  infer_instance

/-! ### Concrete inputs for counterexamples and witnesses -/

/-- A product priced 50 and a FIXED_AMOUNT 500 coupon named "BIG". -/
def dbC1 : DB :=
{ products := [{ id := "p1", normalPrice := 50 }]
  discounts := [{ id := "d1", name := "BIG", discountType := .FIXED_AMOUNT,
                  discountValue := 500, validFrom := -10, validUntil := 10 }] }

/-- A one-product catalog with no discounts at all. -/
def dbW1 : DB := { products := [{ id := "p", normalPrice := 10 }] }

def finalResW1 : DiscountService.FinalAmountResult :=
{ success := true
  data := { subtotal := 10, totalDiscount := 0, shipping := 200, finalTotal := 210
            appliedDiscounts := [], errors := none, discountCode := none } }

def orderTotalsW1 : OrderService.OrderTotals :=
{ subtotal := 10
  quantitySavings := 0
  discountAmount := 0
  appliedDiscounts := []
  shippingCost := 200
  shippingState := none
  totalAmount := 210
  items := [{ productId := "p", quantity := 1, productVariantId := none
              product := { id := "p", normalPrice := 10 }
              basePrice := 10
              quantityPricing := { originalPrice := 10, finalPrice := 10, totalSavings := 0,
                                   pricePerItem := 10, hasDiscount := false, appliedDiscount := none }
              itemTotal := 10, itemSavings := 0 }]
  hasQuantityDiscounts := false
  discountError := none }

/-- Spec scenario C: coupon "SAVE50" is FIXED_AMOUNT 50 with minOrderAmount
100; the cart below totals 80. -/
def prodC2 : Product :=
{ id := "p1", name := "Prod", normalPrice := 40, categoryId := some "c1", subcategoryId := some "s1" }

def dbC2 : DB :=
{ products := [prodC2]
  discounts := [{ id := "c2", name := "SAVE50", discountType := .FIXED_AMOUNT,
                  discountValue := 50, minOrderAmount := some 100,
                  validFrom := -10, validUntil := 10 }] }

def itemsC2 : List CartItemInput := [{ productId := some "p1", product := prodC2, quantity := 2 }]

def cartResC2 : DiscountService.CartResult :=
{ subtotal := 80, totalDiscount := 0, finalTotal := 80, appliedDiscounts := []
  errors := some ["Minimum order amount of ₹100 required"], discountCode := some "SAVE50" }

/-- A cart whose coupon "SAVE50" validates AND whose product also carries an
eligible sitewide 10% discount (the coupon itself is scoped to an absent
product "px" so it does not double as a product-level discount). -/
def prodC3 : Product :=
{ id := "p1", name := "Prod", normalPrice := 100, categoryId := some "c1", subcategoryId := some "s1" }

def dbC3 : DB :=
{ products := [prodC3]
  discounts := [{ id := "c1", name := "SAVE50", discountType := .FIXED_AMOUNT,
                  discountValue := 50, productId := some "px",
                  validFrom := -10, validUntil := 10 },
                { id := "d10", name := "TEN", discountType := .PERCENTAGE,
                  discountValue := 10, validFrom := -10, validUntil := 10 }] }

def cartDataC3 : DiscountService.CartData := { cartItems := [{ productId := "p1", quantity := 2 }] }

def resolvedC3 : List DiscountService.ResolvedItem :=
[{ product := prodC3, price := 100, quantity := 2, itemTotal := 200 }]

def vdC3 : DiscountService.ValidatedDiscount :=
{ id := "c1", name := "SAVE50", discountType := .FIXED_AMOUNT, discountValue := 50
  maxDiscount := none, discountAmount := 50, maxDiscountReached := false, minOrderAmount := 0 }

def finalResC3 : DiscountService.FinalAmountResult :=
{ success := true
  data := { subtotal := 200, totalDiscount := 70, shipping := 200, finalTotal := 330
            appliedDiscounts := [{ type := "CODE", discountId := some "c1", amount := 50 },
                                 { type := "PERCENTAGE", productId := some "p1",
                                   discountId := some "d10", amount := 20 }]
            errors := none, discountCode := some "SAVE50" } }

/-- A PERCENTAGE 10 discount with `maxDiscount` SET TO `0`. -/
def dbC4 : DB :=
{ discounts := [{ id := "d4", name := "PCT", discountType := .PERCENTAGE,
                  discountValue := 10, maxDiscount := some 0,
                  validFrom := -10, validUntil := 10 }] }

/-- A PERCENTAGE 10 discount with a (nonzero) `maxDiscount` of 50. -/
def dbC4w : DB :=
{ discounts := [{ id := "d4", name := "PCT", discountType := .PERCENTAGE,
                  discountValue := 10, maxDiscount := some 50,
                  validFrom := -10, validUntil := 10 }] }

def vdC4w : DiscountService.ValidatedDiscount :=
{ id := "d4", name := "PCT", discountType := .PERCENTAGE, discountValue := 10
  maxDiscount := some 50, discountAmount := 50, maxDiscountReached := true, minOrderAmount := 0 }

/-- Spec scenario B: subcategory rule {quantity 5, PERCENTAGE, 20}. -/
def ruleC5 : QuantityPriceRule :=
{ subcategoryId := "s1", quantity := 5, priceType := .PERCENTAGE, value := 20 }

def dbC5 : DB := { quantityRules := [ruleC5] }

/-- The quantity-pricing result for scenario B (base 500, quantity 5). -/
def qpResC5 : OrderService.QuantityPriceResult :=
{ originalPrice := 2500, finalPrice := 2000, totalSavings := 500,
  pricePerItem := 400, hasDiscount := true, appliedDiscount := some ruleC5 }

/-- Spec scenario A: base price 500, one sitewide uncapped 10% discount. -/
def prodC6 : Product :=
{ id := "p1", name := "Prod", normalPrice := 500, categoryId := some "c1", subcategoryId := some "s1" }

def discC6 : Discount :=
{ id := "d10", name := "TEN", discountType := .PERCENTAGE, discountValue := 10,
  validFrom := -10, validUntil := 10 }

def dbC6 : DB := { products := [prodC6], discounts := [discC6] }

def itemC6 : CartItemInput := { productId := some "p1", product := prodC6, quantity := 2 }

def cartResC6 : DiscountService.CartResult :=
{ subtotal := 1000, totalDiscount := 100, finalTotal := 900
  appliedDiscounts := [{ type := "PRODUCT_LEVEL", productId := some "p1",
                         productName := some "Prod", discountType := some .PERCENTAGE,
                         discountValue := 10, amount := 100,
                         description := "Automatic best offer applied" }]
  errors := none, discountCode := none }

def bestC6 : DiscountService.BestDiscount :=
{ discount := discC6, calculatedAmount := 100, finalPrice := 900 }

/-- An INACTIVE discount whose display name is "SAVE". -/
def discC7 : Discount :=
{ id := "d7", name := "SAVE", discountType := .PERCENTAGE, discountValue := 10,
  validFrom := -10, validUntil := 10, isActive := false }

def dbC7 : DB := { discounts := [discC7] }

/-- A product WITHOUT a subcategory, and a discount scoped solely to a
DIFFERENT product (`productId = "p2"`, category and subcategory unset). -/
def prodC8 : Product :=
{ id := "p1", normalPrice := 10, categoryId := some "c1", subcategoryId := none }

def discC8 : Discount :=
{ id := "dX", name := "X", discountType := .PERCENTAGE, discountValue := 10,
  productId := some "p2", validFrom := -10, validUntil := 10 }

def dbC8 : DB := { products := [prodC8], discounts := [discC8] }

/-- A product with category and subcategory both set, plus one sitewide
discount. -/
def prodC8w : Product :=
{ id := "p1", normalPrice := 10, categoryId := some "c1", subcategoryId := some "s1" }

def discC8w : Discount :=
{ id := "dS", name := "SITE", discountType := .PERCENTAGE, discountValue := 5,
  validFrom := -10, validUntil := 10 }

def dbC8w : DB := { products := [prodC8w], discounts := [discC8w] }

/-- A fresh discount "d1" and an order "o1" with no usage rows yet. -/
def dbC9 : DB :=
{ discounts := [{ id := "d1", name := "X", discountType := .PERCENTAGE,
                  discountValue := 10, validFrom := -10, validUntil := 10 }]
  orders := [{ id := "o1", userId := "u1", userRole := "USER", subtotal := 100,
               discount := 0, totalAmount := 300 }] }

def usageC9 : DiscountUsage :=
{ discountId := "d1", userId := "u1", orderId := "o1", discountAmount := 10 }

/-- `dbC9` after a successful `applyDiscount db "o1" "d1" "u1"`. -/
def dbC9' : DB :=
{ discounts := [{ id := "d1", name := "X", discountType := .PERCENTAGE,
                  discountValue := 10, validFrom := -10, validUntil := 10,
                  usedCount := 1, totalDiscounts := 10 }]
  discountUsages := [usageC9]
  orders := [{ id := "o1", userId := "u1", userRole := "USER", subtotal := 100,
               discount := 10, totalAmount := 290 }] }

/-! ## Theorems -/

theorem round2_zero : round2 0 = 0 := by
  simp [round2]
  norm_num

theorem round2_nonneg {x : ℚ} (hx : 0 ≤ x) : 0 ≤ round2 x := by
  have h : (0 : ℤ) ≤ ⌊100 * x + 1/2⌋ := by
    apply Int.le_floor.mpr
    push_cast
    nlinarith
  unfold round2
  positivity

theorem mem_insertSorted (r : α → α → Bool) (a x : α) (l : List α) :
    x ∈ insertSorted r a l ↔ x = a ∨ x ∈ l := by
  induction l with
  | nil => simp [insertSorted]
  | cons b bs ih =>
      simp only [insertSorted]
      split
      · simp [List.mem_cons]
      · simp [List.mem_cons, ih]
        tauto

theorem mem_sortBy (r : α → α → Bool) (x : α) (l : List α) :
    x ∈ sortBy r l ↔ x ∈ l := by
  induction l with
  | nil => simp [sortBy]
  | cons a as ih =>
      simp [sortBy, mem_insertSorted, ih, List.mem_cons]

theorem pairwise_insertSorted (r : α → α → Bool)
    (htot : ∀ a b, r a b = false → r b a = true)
    (htrans : ∀ a b c, r a b = true → r b c = true → r a c = true)
    (a : α) (l : List α) (hl : l.Pairwise (fun x y => r x y = true)) :
    (insertSorted r a l).Pairwise (fun x y => r x y = true) := by
  induction l with
  | nil => simp [insertSorted]
  | cons b bs ih =>
      simp only [insertSorted]
      rcases hl with _ | ⟨hb, hbs⟩
      split
      · rename_i hr
        refine List.Pairwise.cons ?_ (List.Pairwise.cons hb hbs)
        intro x hx
        rcases List.mem_cons.mp hx with h | h
        · subst h; exact hr
        · exact htrans _ _ _ hr (hb x h)
      · rename_i hr
        refine List.Pairwise.cons ?_ (ih hbs)
        intro x hx
        rcases (mem_insertSorted r a x bs).mp hx with h | h
        · subst h
          exact htot _ _ (by simpa using hr)
        · exact hb x h

theorem pairwise_sortBy (r : α → α → Bool)
    (htot : ∀ a b, r a b = false → r b a = true)
    (htrans : ∀ a b c, r a b = true → r b c = true → r a c = true)
    (l : List α) :
    (sortBy r l).Pairwise (fun x y => r x y = true) := by
  induction l with
  | nil => simp [sortBy]
  | cons a as ih => exact pairwise_insertSorted r htot htrans a _ ih


/-! ### C10 — Shipping Cost Rule -/

/-- Claim C10 counterexample: the claim says the Shipping Cost Rule (both
cited implementations) trims and case-insensitively normalizes the state
name before the table lookup.  The `discountService.js` implementation does
not: it maps "TAMIL NADU" to the default 200 while mapping "Tamil Nadu" to
80, so its lookup is case-sensitive (the `orderService.js` implementation
maps "TAMIL NADU" to 80). -/
theorem claimC10_counterexample :
    DiscountService.calculateShippingCost (some "TAMIL NADU") = 200 ∧
    DiscountService.calculateShippingCost (some "Tamil Nadu") = 80 ∧
    OrderService.calculateShippingCost (some "TAMIL NADU") = 80 ∧
    DiscountService.calculateShippingCost (some "TAMIL NADU") ≠
      DiscountService.calculateShippingCost (some "Tamil Nadu") := by
  refine ⟨by decide, by decide, by decide, by decide⟩

/-- Claim C10, amended: both shipping-cost rules are total pure functions
into the tariff set {80, 100, 200} and agree on the scenario values
("Tamil Nadu" maps to 80, "Kerala" to 100, the empty or an unrecognized
state to the default 200); the `orderService.js` rule additionally trims and
case-insensitively normalizes the name before its lookup (shown here on
padded and case-varied inputs), while the `discountService.js` rule is an
exact-match table lookup with no normalization. -/
theorem claimC10_shippingRules_amended :
    (∀ s : Option String, OrderService.calculateShippingCost s = 80 ∨
      OrderService.calculateShippingCost s = 100 ∨
      OrderService.calculateShippingCost s = 200) ∧
    (∀ s : Option String, DiscountService.calculateShippingCost s = 80 ∨
      DiscountService.calculateShippingCost s = 100 ∨
      DiscountService.calculateShippingCost s = 200) ∧
    OrderService.calculateShippingCost (some "Tamil Nadu") = 80 ∧
    OrderService.calculateShippingCost (some " TAMIL nadu ") = 80 ∧
    OrderService.calculateShippingCost (some "Kerala") = 100 ∧
    OrderService.calculateShippingCost (some "kerala") = 100 ∧
    OrderService.calculateShippingCost (some "") = 200 ∧
    OrderService.calculateShippingCost none = 200 ∧
    OrderService.calculateShippingCost (some "Goa") = 200 ∧
    DiscountService.calculateShippingCost (some "Tamil Nadu") = 80 ∧
    DiscountService.calculateShippingCost (some "Kerala") = 100 ∧
    DiscountService.calculateShippingCost (some "") = 200 ∧
    DiscountService.calculateShippingCost none = 200 ∧
    DiscountService.calculateShippingCost (some "Goa") = 200 := by
  refine ⟨?_, ?_, by decide, by decide, by decide, by decide, by decide, by decide,
          by decide, by decide, by decide, by decide, by decide, by decide⟩
  · intro s
    simp only [OrderService.calculateShippingCost]
    split
    · right; right; rfl
    · split
      · left; rfl
      · split
        · right; left; rfl
        · right; right; rfl
  · intro s
    rcases s with _ | s
    · right; right; rfl
    · simp only [DiscountService.calculateShippingCost, DiscountService.shippingRates,
        List.lookup]
      repeat' split
      all_goals simp_all

/-! ### C4 — PERCENTAGE cap and `maxDiscountReached` -/

/-- Claim C4 counterexample: the claim quantifies over every PERCENTAGE
discount "with maxDiscount set".  The code guards the cap with JS
truthiness (`discount.maxDiscount && ...`), so a discount whose
`maxDiscount` is set to `0` is not capped at all: for `dbC4` (PERCENTAGE 10,
`maxDiscount = 0`) and candidate amount 100 the computed `discountAmount`
is 10, which exceeds `maxDiscount = 0`, and `maxDiscountReached` is `false`
even though the uncapped amount `100 * 10 / 100 = 10` exceeds it. -/
theorem claimC4_counterexample :
    ((DiscountService.validateDiscount dbC4 "PCT" none 100).discount.map
      (fun d => (d.discountAmount, d.maxDiscount, d.maxDiscountReached, d.discountValue)))
      = some (10, some 0, false, 10) ∧
    ¬ ((10 : ℚ) ≤ 0) ∧ (0 : ℚ) < 100 * 10 / 100 := by
  refine ⟨by decide, by norm_num, by norm_num⟩

/-- Claim C4, amended: for every PERCENTAGE discount with `maxDiscount` set
to a NONZERO value (a zero cap is falsy in JS and is ignored by the code)
and every candidate order amount, the `discountAmount` computed by
`validateDiscount` never exceeds `maxDiscount`, and `maxDiscountReached` is
`true` exactly when the uncapped amount `candidateOrderAmount * value / 100`
would exceed `maxDiscount`. -/
theorem claimC4_percentageCap_amended (db : DB) (code : String) (uid : Option String)
    (amt : ℚ) (vd : DiscountService.ValidatedDiscount) (m : ℚ)
    (h1 : (DiscountService.validateDiscount db code uid amt).discount = some vd)
    (h2 : vd.discountType = DiscountType.PERCENTAGE)
    (h3 : vd.maxDiscount = some m) (h4 : m ≠ 0) :
    vd.discountAmount ≤ m ∧
      (vd.maxDiscountReached = true ↔ m < amt * vd.discountValue / 100) := by
  unfold DiscountService.validateDiscount at h1
  cases hf : DiscountService.findDiscountByCode db code with
  | none => rw [hf] at h1; simp at h1
  | some d =>
    rw [hf] at h1
    simp only at h1
    split at h1
    · simp at h1
    · split at h1
      · simp at h1
      · split at h1
        · simp at h1
        · split at h1
          · simp at h1
          · split at h1
            · simp at h1
            · split at h1
              · simp at h1
              · split at h1
                · rename_i hcond
                  split at h1
                  · rename_i hcap
                    simp only [Option.some.injEq] at h1
                    subst h1
                    simp only at h2 h3 ⊢
                    rw [h3] at hcap ⊢
                    simp [qTruthy] at hcap
                    simp [hcap.2]
                  · rename_i hcap
                    simp only [Option.some.injEq] at h1
                    subst h1
                    simp only at h2 h3 ⊢
                    rw [h3] at hcap
                    simp [qTruthy, h4] at hcap
                    constructor
                    · exact hcap
                    · simp [not_lt.mpr hcap]
                · rename_i hty
                  simp only [Option.some.injEq] at h1
                  subst h1
                  simp only at h2
                  exact absurd h2 hty

/-- Witness for C4 (amended) at `dbC4w`: a PERCENTAGE 10 discount with a
nonzero cap of 50, validated against a candidate amount of 1000 (the cap
binds: amount 50, flag set). -/
theorem claimC4_percentageCap_amended_witness :
    vdC4w.discountAmount ≤ 50 ∧
      (vdC4w.maxDiscountReached = true ↔ (50 : ℚ) < 1000 * vdC4w.discountValue / 100) :=
  claimC4_percentageCap_amended dbC4w "PCT" none 1000 vdC4w 50
    (by decide) (by decide) (by decide) (by decide)

/-! ### C7 — coupon validation: lookup and check cascade -/

/-- Claim C7 counterexample: the claim says lookup is by exact display-name
match first (with the inactive check afterwards producing "not active").
The code's name lookup is `findFirst({name: code, isActive: true})`, so an
INACTIVE discount referenced by its name is simply not found: for `dbC7`
(one inactive discount named "SAVE", id "d7") the result for code "SAVE" is
"Invalid discount code", not the "not active" message the claimed cascade
would produce — the "not active" message is reachable only through the
id-based fallback lookup. -/
theorem claimC7_counterexample :
    DiscountService.validateDiscount dbC7 "SAVE" none 0 =
      { isValid := false, message := some "Invalid discount code" } ∧
    dbC7.discounts.find? (fun d => decide (d.name = "SAVE")) = some discC7 ∧
    discC7.isActive = false ∧
    DiscountService.validateDiscount dbC7 "d7" none 0 =
      { isValid := false, message := some "Discount is not active" } ∧
    (some "Invalid discount code" : Option String) ≠ some "Discount is not active" := by
  refine ⟨by decide, by decide, by decide, by decide, by decide⟩

namespace DiscountService

/-- Claim C7, amended: coupon validation looks the discount up by exact
display-name match RESTRICTED TO ACTIVE DISCOUNTS first, falling back to
lookup by identifier (so the inactive branch is reachable only via the id
lookup; an inactive discount referenced by name yields "Invalid discount
code").  It then performs its checks in order, short-circuiting on the first
failure with that check's specific message: not found, inactive, not yet
valid, expired, usage limit reached, per-user limit reached, and candidate
amount below `minOrderAmount` with a message naming the required amount;
when every check passes the result is valid with no message. -/
theorem claimC7_validateCascade_amended (db : DB) (code : String)
    (uid : Option String) (amt : ℚ) :
    (findDiscountByCode db code = none →
      validateDiscount db code uid amt =
        { isValid := false, message := some "Invalid discount code" }) ∧
    (∀ d, db.discounts.find? (fun x => decide (x.name = code) && x.isActive) = some d →
      findDiscountByCode db code = some d) ∧
    (∀ d, findDiscountByCode db code = some d →
      (d.isActive = false →
        validateDiscount db code uid amt =
          { isValid := false, message := some "Discount is not active" }) ∧
      (d.isActive = true → db.now < d.validFrom →
        validateDiscount db code uid amt =
          { isValid := false, message := some "Discount not yet valid" }) ∧
      (d.isActive = true → ¬ db.now < d.validFrom → db.now > d.validUntil →
        validateDiscount db code uid amt =
          { isValid := false, message := some "Discount has expired" }) ∧
      (d.isActive = true → ¬ db.now < d.validFrom → ¬ db.now > d.validUntil →
        (natTruthy d.usageLimit && decide (d.usageLimit.getD 0 ≤ d.usedCount)) = true →
        validateDiscount db code uid amt =
          { isValid := false, message := some "Discount usage limit reached" }) ∧
      (d.isActive = true → ¬ db.now < d.validFrom → ¬ db.now > d.validUntil →
        (natTruthy d.usageLimit && decide (d.usageLimit.getD 0 ≤ d.usedCount)) = false →
        (decide (0 < d.perUserLimit) && strTruthy uid &&
          decide (d.perUserLimit ≤ userUsageCount db d.id uid)) = true →
        validateDiscount db code uid amt =
          { isValid := false,
            message := some "You have reached the usage limit for this discount" }) ∧
      (d.isActive = true → ¬ db.now < d.validFrom → ¬ db.now > d.validUntil →
        (natTruthy d.usageLimit && decide (d.usageLimit.getD 0 ≤ d.usedCount)) = false →
        (decide (0 < d.perUserLimit) && strTruthy uid &&
          decide (d.perUserLimit ≤ userUsageCount db d.id uid)) = false →
        amt < d.minOrderAmount.getD 0 →
        validateDiscount db code uid amt =
          { isValid := false,
            message := some ("Minimum order amount of ₹" ++
              toString (d.minOrderAmount.getD 0) ++ " required") }) ∧
      (d.isActive = true → ¬ db.now < d.validFrom → ¬ db.now > d.validUntil →
        (natTruthy d.usageLimit && decide (d.usageLimit.getD 0 ≤ d.usedCount)) = false →
        (decide (0 < d.perUserLimit) && strTruthy uid &&
          decide (d.perUserLimit ≤ userUsageCount db d.id uid)) = false →
        ¬ amt < d.minOrderAmount.getD 0 →
        (validateDiscount db code uid amt).isValid = true ∧
        (validateDiscount db code uid amt).message = none)) := by
  refine ⟨?_, ?_, ?_⟩
  · intro h
    simp [validateDiscount, h]
  · intro d hd
    simp [findDiscountByCode, hd]
  · intro d hd
    refine ⟨?_, ?_, ?_, ?_, ?_, ?_, ?_⟩
    · intro h1
      simp [validateDiscount, hd, h1]
    · intro h1 h2
      simp [validateDiscount, hd, h1, h2]
    · intro h1 h2 h3
      simp [validateDiscount, hd, h1, h2, h3]
    · intro h1 h2 h3 h4
      simp [validateDiscount, hd, h1, h2, h3, h4]
    · intro h1 h2 h3 h4 h5
      simp [validateDiscount, hd, h1, h2, h3, h4, h5]
    · intro h1 h2 h3 h4 h5 h6
      simp [validateDiscount, hd, h1, h2, h3, h4, h5, h6]
    · intro h1 h2 h3 h4 h5 h6
      constructor <;>
        · simp only [validateDiscount, hd]
          simp [h1, h2, h3, h4, h5, h6]
          split <;> first
            | rfl
            | (split <;> rfl)

end DiscountService

/-- Witness for C7 (amended): an unknown code yields "Invalid discount
code", and the inactive discount of `dbC7` reached via its id yields
"Discount is not active". -/
theorem claimC7_validateCascade_amended_witness :
    DiscountService.validateDiscount dbC7 "NOPE" none 0 =
      { isValid := false, message := some "Invalid discount code" } ∧
    DiscountService.validateDiscount dbC7 "d7" none 0 =
      { isValid := false, message := some "Discount is not active" } :=
  ⟨(DiscountService.claimC7_validateCascade_amended dbC7 "NOPE" none 0).1 (by decide),
   ((DiscountService.claimC7_validateCascade_amended dbC7 "d7" none 0).2.2 discC7
     (by decide)).1 (by decide)⟩

/-! ### C2 — coupon mode is exclusive -/

namespace DiscountService

/-- Claim C2 (confirmed): for every cart and every supplied (truthy) coupon
code, `calculateCartDiscounts` applies at most the single order-level
coupon: the result contains zero PRODUCT_LEVEL applied-discount descriptors
regardless of per-product eligibility, and when coupon validation fails the
total discount is zero and the validation message is recorded as the sole
error — there is no fallback to per-product discounts in the same
invocation. -/
theorem claimC2_couponExclusive (db : DB) (cartItems : List CartItemInput)
    (uid : Option String) (code : String) (hcode : code ≠ "")
    (r : CartResult)
    (hr : calculateCartDiscounts db cartItems uid (some code) = .ok r) :
    r.appliedDiscounts.countP (fun a => decide (a.type = "PRODUCT_LEVEL")) = 0 ∧
    ((validateDiscount db code uid (cartSubtotal cartItems)).isValid = false →
      r.totalDiscount = 0 ∧
      r.errors = some [(validateDiscount db code uid
        (cartSubtotal cartItems)).message.getD ""]) := by
  unfold calculateCartDiscounts calculateCartDiscountsRaw at hr
  have hst : strTruthy (some code) = true := by simp [strTruthy, hcode]
  rw [hst] at hr
  simp only [if_true, Option.getD_some, if_pos] at hr
  cases hd : (validateDiscount db code uid (cartSubtotal cartItems)).discount with
  | some vd =>
    cases hv : (validateDiscount db code uid (cartSubtotal cartItems)).isValid with
    | true =>
      rw [hd, hv] at hr
      simp only [Except.map, Except.ok.injEq] at hr
      subst hr
      constructor
      · simp [roundCartResult, List.countP, List.countP.go]
      · intro hvfalse
        exact absurd hvfalse (by decide)
    | false =>
      rw [hd, hv] at hr
      simp only [Except.map, Except.ok.injEq] at hr
      subst hr
      constructor
      · simp [roundCartResult, List.countP, List.countP.go]
      · intro _
        refine ⟨?_, ?_⟩
        · simp [roundCartResult, round2]
          norm_num
        · simp [roundCartResult]
  | none =>
    rw [hd] at hr
    simp only [Except.map, Except.ok.injEq] at hr
    subst hr
    constructor
    · simp [roundCartResult, List.countP, List.countP.go]
    · intro _
      refine ⟨?_, ?_⟩
      · simp [roundCartResult, round2]
        norm_num
      · simp [roundCartResult]

end DiscountService

/-- Witness for C2 at spec scenario C: coupon "SAVE50" (FIXED_AMOUNT 50,
minOrderAmount 100) against a cart totalling 80 — validation fails, the
discount is zero, the minimum-amount message is the sole error, and no
PRODUCT_LEVEL descriptor appears. -/
theorem claimC2_couponExclusive_witness :
    cartResC2.appliedDiscounts.countP (fun a => decide (a.type = "PRODUCT_LEVEL")) = 0 ∧
    cartResC2.totalDiscount = 0 ∧
    cartResC2.errors = some [(DiscountService.validateDiscount dbC2 "SAVE50" none
      (DiscountService.cartSubtotal itemsC2)).message.getD ""] := by
  have h := DiscountService.claimC2_couponExclusive dbC2 itemsC2 none "SAVE50"
    (by decide) cartResC2 (by decide)
  exact ⟨h.1, (h.2 (by decide)).1, (h.2 (by decide)).2⟩

/-! ### C1 — Order Total Assembly: the max(0, ·) floor -/

theorem exceptBind_ok (a : α) (f : α → Except ε β) :
    (Except.ok a >>= f) = f a := rfl

theorem exceptBind_error (e : ε) (f : α → Except ε β) :
    ((Except.error e : Except ε α) >>= f) = Except.error e := rfl

theorem finalAmountRaw_floor (db : DB) (cart : DiscountService.CartData) (uid code : Option String)
    (r : DiscountService.FinalAmountResult)
    (hr : DiscountService.calculateFinalAmountWithDiscountsRaw db cart uid code = .ok r) :
    r.data.finalTotal = max 0 (r.data.subtotal - r.data.totalDiscount + r.data.shipping) ∧
    0 ≤ r.data.finalTotal := by
  unfold DiscountService.calculateFinalAmountWithDiscountsRaw at hr
  cases h1 : DiscountService.resolveCartItems db cart.cartItems with
  | error e => rw [h1, exceptBind_error] at hr; exact Except.noConfusion hr
  | ok items =>
    rw [h1, exceptBind_ok] at hr
    cases h2 : DiscountService.productLevelDiscounts db uid items with
    | error e => rw [h2, exceptBind_error] at hr; exact Except.noConfusion hr
    | ok pr =>
      rw [h2, exceptBind_ok] at hr
      simp only [Except.ok.injEq] at hr
      subst hr
      exact ⟨rfl, le_max_left 0 _⟩

theorem finalAmount_nonneg (db : DB) (cart : DiscountService.CartData) (uid code : Option String)
    (r : DiscountService.FinalAmountResult)
    (hr : DiscountService.calculateFinalAmountWithDiscounts db cart uid code = .ok r) :
    0 ≤ r.data.finalTotal := by
  unfold DiscountService.calculateFinalAmountWithDiscounts at hr
  cases hR : DiscountService.calculateFinalAmountWithDiscountsRaw db cart uid code with
  | error e => rw [hR] at hr; exact Except.noConfusion hr
  | ok r0 =>
    rw [hR] at hr
    simp only [Except.map, Except.ok.injEq] at hr
    subst hr
    exact round2_nonneg (finalAmountRaw_floor db cart uid code r0 hR).2

theorem orderTotalsRaw_noFloor (db : DB) (items : List OrderService.OrderItemInput)
    (code state uid : Option String) (t : OrderService.OrderTotals)
    (hr : OrderService.calculateOrderTotalsRaw db items code state uid = .ok t) :
    t.totalAmount = t.subtotal - t.discountAmount + t.shippingCost := by
  unfold OrderService.calculateOrderTotalsRaw at hr
  split at hr
  · exact Except.noConfusion hr
  · cases h1 : OrderService.resolveOrderItems db items with
    | error e => rw [h1, exceptBind_error] at hr; exact Except.noConfusion hr
    | ok resolved =>
      rw [h1, exceptBind_ok] at hr
      simp only [Except.ok.injEq] at hr
      subst hr
      rfl

/-- Claim C1 counterexample: the claim states that Order Total Assembly
always returns `finalTotal = max(0, subtotal - discountAmount +
shippingCost)` and never a negative total.  `calculateOrderTotals`
(`orderService.js`) computes `totalAmount = subtotal - discountAmount +
shippingCost` with no floor: for `dbC1` (product priced 50, FIXED_AMOUNT
500 coupon "BIG", default shipping 200) it returns `totalAmount = -250`,
which is negative and differs from the claimed floored value. -/
theorem claimC1_counterexample :
    ((OrderService.calculateOrderTotals dbC1 [{ productId := "p1", quantity := 1 }]
        (some "BIG") none none).map
      (fun t => (t.subtotal, t.discountAmount, t.shippingCost, t.totalAmount))) =
      .ok (50, 500, 200, -250) ∧
    ((OrderService.calculateOrderTotals dbC1 [{ productId := "p1", quantity := 1 }]
        (some "BIG") none none).map
      (fun t => decide (t.totalAmount =
          max 0 (t.subtotal - t.discountAmount + t.shippingCost)) ||
        decide (0 ≤ t.totalAmount))) = .ok false := by
  refine ⟨by decide, by decide⟩

/-- Claim C1, amended: the confirmation-path assembly
`calculateFinalAmountWithDiscounts` does satisfy the claim — its
(pre-rounding) result obeys `finalTotal = max(0, subtotal - totalDiscount +
shipping)` and the returned total is never negative; `calculateOrderTotals`,
however, returns `totalAmount = subtotal - discountAmount + shippingCost`
WITHOUT the `max(0, ·)` floor, so its total can be negative when the
discount exceeds subtotal plus shipping (see the counterexample). -/
theorem claimC1_orderTotal_amended :
    (∀ (db : DB) (cart : DiscountService.CartData) (uid code : Option String)
        (r : DiscountService.FinalAmountResult),
      DiscountService.calculateFinalAmountWithDiscountsRaw db cart uid code = .ok r →
      r.data.finalTotal = max 0 (r.data.subtotal - r.data.totalDiscount + r.data.shipping) ∧
      0 ≤ r.data.finalTotal) ∧
    (∀ (db : DB) (cart : DiscountService.CartData) (uid code : Option String)
        (r : DiscountService.FinalAmountResult),
      DiscountService.calculateFinalAmountWithDiscounts db cart uid code = .ok r →
      0 ≤ r.data.finalTotal) ∧
    (∀ (db : DB) (items : List OrderService.OrderItemInput)
        (code state uid : Option String) (t : OrderService.OrderTotals),
      OrderService.calculateOrderTotalsRaw db items code state uid = .ok t →
      t.totalAmount = t.subtotal - t.discountAmount + t.shippingCost) :=
  ⟨finalAmountRaw_floor, finalAmount_nonneg, orderTotalsRaw_noFloor⟩

/-- Witness for C1 (amended) on a one-item cart with no discounts: the
confirmation-path total is the floored sum (and nonnegative), while the
`calculateOrderTotals` total is the raw unfloored sum. -/
theorem claimC1_orderTotal_amended_witness :
    (finalResW1.data.finalTotal = max 0 (finalResW1.data.subtotal -
        finalResW1.data.totalDiscount + finalResW1.data.shipping) ∧
      0 ≤ finalResW1.data.finalTotal) ∧
    orderTotalsW1.totalAmount = orderTotalsW1.subtotal -
      orderTotalsW1.discountAmount + orderTotalsW1.shippingCost :=
  ⟨claimC1_orderTotal_amended.1 dbW1 { cartItems := [{ productId := "p", quantity := 1 }] }
      none none finalResW1 (by decide),
   claimC1_orderTotal_amended.2.2 dbW1 [{ productId := "p", quantity := 1 }]
      none none none orderTotalsW1 (by decide)⟩

/-! ### C5 — Quantity-Tier Pricing -/

namespace OrderService

theorem qpFold_le_init (b : ℚ) (q : ℕ) (l : List QuantityPriceRule)
    (acc : ℚ × Option QuantityPriceRule) :
    (l.foldl (qpStep b q) acc).1 ≤ acc.1 := by
  induction l generalizing acc with
  | nil => simp
  | cons r t ih =>
      simp only [List.foldl]
      refine le_trans (ih _) ?_
      unfold qpStep
      dsimp only
      split
      · split
        · rename_i hlt
          exact le_of_lt hlt
        · exact le_refl _
      · exact le_refl _

theorem qpFold_le_rule (b : ℚ) (q : ℕ) (l : List QuantityPriceRule)
    (acc : ℚ × Option QuantityPriceRule) (r : QuantityPriceRule)
    (hr : r ∈ l) (hq : r.quantity ≤ q) :
    (l.foldl (qpStep b q) acc).1 ≤ ruleFinalPrice b q r := by
  induction l generalizing acc with
  | nil => cases hr
  | cons r' t ih =>
      simp only [List.foldl]
      rcases List.mem_cons.mp hr with h | h
      · subst h
        refine le_trans (qpFold_le_init b q t _) ?_
        unfold qpStep
        dsimp only
        rw [if_pos hq]
        split
        · exact le_refl _
        · rename_i hnlt
          exact le_of_not_lt hnlt
      · exact ih _ h

theorem qpFold_attain (b : ℚ) (q : ℕ) (l : List QuantityPriceRule)
    (acc : ℚ × Option QuantityPriceRule) :
    (l.foldl (qpStep b q) acc).1 = acc.1 ∨
      ∃ r ∈ l, r.quantity ≤ q ∧ (l.foldl (qpStep b q) acc).1 = ruleFinalPrice b q r := by
  induction l generalizing acc with
  | nil => left; rfl
  | cons r' t ih =>
      simp only [List.foldl]
      have hstep : qpStep b q acc r' = acc ∨
          (r'.quantity ≤ q ∧ qpStep b q acc r' = (ruleFinalPrice b q r', some r')) := by
        unfold qpStep
        dsimp only
        split
        · rename_i hq
          split
          · right; exact ⟨hq, rfl⟩
          · left; rfl
        · left; rfl
      rcases hstep with h | ⟨hq, h⟩
      · rw [h]
        rcases ih acc with h2 | ⟨r, hrmem, hrq, h2⟩
        · left; exact h2
        · right; exact ⟨r, List.mem_cons_of_mem _ hrmem, hrq, h2⟩
      · rw [h]
        rcases ih (ruleFinalPrice b q r', some r') with h2 | ⟨r, hrmem, hrq, h2⟩
        · right
          exact ⟨r', List.mem_cons_self _ _, hq, h2⟩
        · right; exact ⟨r, List.mem_cons_of_mem _ hrmem, hrq, h2⟩


/-- Claim C5 (confirmed): for every line item with a (truthy) subcategory,
`calculateItemQuantityPrice` returns the minimum total over the baseline
`unitPrice*quantity` and, for every active rule of that subcategory with
threshold ≤ quantity, the rule's total (`unitPrice*quantity*(1 - value/100)`
for PERCENTAGE, `value` verbatim as a total-price override otherwise);
savings equals baseline minus the chosen total; an item with no subcategory
gets `unitPrice*quantity` with zero savings; and spec scenario B (base 500,
rule {quantity 5, PERCENTAGE, 20}, quantity 5) yields originalTotal 2500,
finalTotal 2000, savings 500. -/
theorem claimC5_quantityTier (db : DB) (pid subId : String) (basePrice : ℚ) (qty : ℕ)
    (hsub : subId ≠ "") (r : QuantityPriceResult)
    (hr : calculateItemQuantityPrice db pid (some subId) basePrice qty = r) :
    r.originalPrice = basePrice * qty ∧
    r.finalPrice ≤ basePrice * qty ∧
    (∀ rule ∈ db.quantityRules, rule.subcategoryId = subId → rule.isActive = true →
      rule.quantity ≤ qty → r.finalPrice ≤ ruleFinalPrice basePrice qty rule) ∧
    (r.finalPrice = basePrice * qty ∨
      ∃ rule ∈ db.quantityRules, rule.subcategoryId = subId ∧ rule.isActive = true ∧
        rule.quantity ≤ qty ∧ r.finalPrice = ruleFinalPrice basePrice qty rule) ∧
    r.totalSavings = r.originalPrice - r.finalPrice ∧
    (∀ (db2 : DB) (pid2 : String) (bp2 : ℚ) (q2 : ℕ),
      calculateItemQuantityPrice db2 pid2 none bp2 q2 =
        { originalPrice := bp2 * q2, finalPrice := bp2 * q2, totalSavings := 0,
          pricePerItem := bp2, hasDiscount := false, appliedDiscount := none }) ∧
    (calculateItemQuantityPrice dbC5 "p" (some "s1") 500 5).originalPrice = 2500 ∧
    (calculateItemQuantityPrice dbC5 "p" (some "s1") 500 5).finalPrice = 2000 ∧
    (calculateItemQuantityPrice dbC5 "p" (some "s1") 500 5).totalSavings = 500 := by
  subst hr
  have hst : (strTruthy (some subId) = false) = False := by
    simp [strTruthy, hsub]
  unfold calculateItemQuantityPrice
  simp only [hst, if_false, Option.getD_some]
  refine ⟨trivial, ?_, ?_, ?_, trivial, ?_, by decide, by decide, by decide⟩
  · exact qpFold_le_init basePrice qty _ _
  · intro rule hmem hsubeq hact hq
    refine qpFold_le_rule basePrice qty _ _ rule ?_ hq
    rw [mem_sortBy]
    rw [List.mem_filter]
    refine ⟨hmem, ?_⟩
    simp [hsubeq, hact, hq]
  · rcases qpFold_attain basePrice qty
        (sortBy (fun a b => decide (b.quantity ≤ a.quantity))
          (db.quantityRules.filter
            (fun r => decide (r.subcategoryId = subId) && r.isActive && decide (r.quantity ≤ qty))))
        (basePrice * qty, none) with h | ⟨rule, hmem, hq, heq⟩
    · left; exact h
    · right
      rw [mem_sortBy, List.mem_filter] at hmem
      obtain ⟨hmem, hp⟩ := hmem
      simp only [Bool.and_eq_true, decide_eq_true_eq] at hp
      exact ⟨rule, hmem, hp.1.1, hp.1.2, hp.2, heq⟩
  · intro db2 pid2 bp2 q2
    simp [calculateItemQuantityPrice, strTruthy]


/-- Witness for C5 at scenario B: the chosen total 2000 is bounded by the
baseline 2500 and by the PERCENTAGE-20 rule's total. -/
theorem claimC5_quantityTier_witness :
    qpResC5.finalPrice ≤ 500 * (5 : ℕ) ∧
    qpResC5.finalPrice ≤ ruleFinalPrice 500 5 ruleC5 := by
  have h := claimC5_quantityTier dbC5 "p" "s1" 500 5 (by decide) qpResC5 (by decide)
  exact ⟨h.2.1, h.2.2.1 ruleC5 (by decide) rfl rfl (by decide)⟩

end OrderService

/-! ### C6 — best-discount selection -/

namespace DiscountService

theorem bdFold_spec (tp : ℚ) (q : ℕ) (l : List Discount) (acc : Option BestDiscount × ℚ) :
    (l.foldl (bdStep tp q) acc = acc ∧
      ∀ d ∈ l, bdSkip q d = false → bdAmount tp q d ≤ acc.2) ∨
    (∃ pre d post, l = pre ++ d :: post ∧ bdSkip q d = false ∧
      acc.2 < bdAmount tp q d ∧
      l.foldl (bdStep tp q) acc =
        (some { discount := d, calculatedAmount := bdAmount tp q d,
                finalPrice := max 0 (tp - bdAmount tp q d) }, bdAmount tp q d) ∧
      (∀ x ∈ pre, bdSkip q x = false → bdAmount tp q x < bdAmount tp q d) ∧
      (∀ x ∈ post, bdSkip q x = false → bdAmount tp q x ≤ bdAmount tp q d)) := by
  induction l generalizing acc with
  | nil => left; exact ⟨rfl, by simp⟩
  | cons a t ih =>
    simp only [List.foldl]
    by_cases hskip : bdSkip q a = true
    · have hstep : bdStep tp q acc a = acc := by
        unfold bdStep; rw [if_pos hskip]
      rw [hstep]
      rcases ih acc with ⟨heq, hb⟩ | ⟨pre, d, post, hl, hsk, hgt, hres, hpre, hpost⟩
      · left
        refine ⟨heq, ?_⟩
        intro d hd hdsk
        rcases List.mem_cons.mp hd with h | h
        · subst h; rw [hskip] at hdsk; cases hdsk
        · exact hb d h hdsk
      · right
        refine ⟨a :: pre, d, post, by rw [hl]; rfl, hsk, hgt, hres, ?_, hpost⟩
        intro x hx hxsk
        rcases List.mem_cons.mp hx with h | h
        · subst h; rw [hskip] at hxsk; cases hxsk
        · exact hpre x h hxsk
    · have hskipf : bdSkip q a = false := by simpa using hskip
      by_cases hgt : acc.2 < bdAmount tp q a
      · have hstep : bdStep tp q acc a =
            (some { discount := a, calculatedAmount := bdAmount tp q a,
                    finalPrice := max 0 (tp - bdAmount tp q a) }, bdAmount tp q a) := by
          unfold bdStep
          rw [if_neg (by simp [hskipf])]
          dsimp only
          rw [if_pos hgt]
        rw [hstep]
        rcases ih (some ({ discount := a, calculatedAmount := bdAmount tp q a, finalPrice := max 0 (tp - bdAmount tp q a) } : BestDiscount), bdAmount tp q a) with ⟨heq, hb⟩ | ⟨pre, d, post, hl, hsk, hgt2, hres, hpre, hpost⟩
        · right
          refine ⟨[], a, t, rfl, hskipf, hgt, ?_, by simp, ?_⟩
          · rw [heq]
          · intro x hx hxsk
            exact hb x hx hxsk
        · right
          refine ⟨a :: pre, d, post, by rw [hl]; rfl, hsk, lt_trans hgt hgt2, hres, ?_, hpost⟩
          intro x hx hxsk
          rcases List.mem_cons.mp hx with h | h
          · subst h; exact hgt2
          · exact hpre x h hxsk
      · have hle : bdAmount tp q a ≤ acc.2 := le_of_not_lt hgt
        have hstep : bdStep tp q acc a = acc := by
          unfold bdStep
          rw [if_neg (by simp [hskipf])]
          dsimp only
          rw [if_neg hgt]
        rw [hstep]
        rcases ih acc with ⟨heq, hb⟩ | ⟨pre, d, post, hl, hsk, hgt2, hres, hpre, hpost⟩
        · left
          refine ⟨heq, ?_⟩
          intro d hd hdsk
          rcases List.mem_cons.mp hd with h | h
          · subst h; exact hle
          · exact hb d h hdsk
        · right
          refine ⟨a :: pre, d, post, by rw [hl]; rfl, hsk, hgt2, hres, ?_, hpost⟩
          intro x hx hxsk
          rcases List.mem_cons.mp hx with h | h
          · subst h; exact lt_of_le_of_lt hle hgt2
          · exact hpre x h hxsk


/-- Claim C6 (confirmed): `getBestProductDiscount` skips candidates whose
(truthy) `minQuantity` exceeds the line's quantity, computes each remaining
candidate's amount from the line total, and returns the candidate with the
strictly greatest computed amount — on ties the first-seen candidate is
kept (every earlier considered candidate is strictly smaller), and `none`
is returned exactly when no considered candidate produces a positive
amount.  Spec scenario A also holds: a cart of quantity 2 at unit price
500 with one sitewide uncapped 10% discount and no coupon yields subtotal
1000, totalDiscount 100, finalTotal 900 from `calculateCartDiscounts`. -/
theorem claimC6_bestDiscount (discounts : List Discount) (item : CartItemInput) :
    (getBestProductDiscount discounts item = none ↔
      ∀ d ∈ discounts, bdSkip item.quantity d = false →
        bdAmount (orPrice item.product.offerPrice item.product.normalPrice * item.quantity)
          item.quantity d ≤ 0) ∧
    (∀ b, getBestProductDiscount discounts item = some b →
      b.discount ∈ discounts ∧
      bdSkip item.quantity b.discount = false ∧
      b.calculatedAmount =
        bdAmount (orPrice item.product.offerPrice item.product.normalPrice * item.quantity)
          item.quantity b.discount ∧
      0 < b.calculatedAmount ∧
      (∀ d ∈ discounts, bdSkip item.quantity d = false →
        bdAmount (orPrice item.product.offerPrice item.product.normalPrice * item.quantity)
          item.quantity d ≤ b.calculatedAmount) ∧
      ∃ pre post, discounts = pre ++ b.discount :: post ∧
        ∀ x ∈ pre, bdSkip item.quantity x = false →
          bdAmount (orPrice item.product.offerPrice item.product.normalPrice * item.quantity)
            item.quantity x < b.calculatedAmount) ∧
    calculateCartDiscounts dbC6 [itemC6] none none = .ok cartResC6 := by
  set tp := orPrice item.product.offerPrice item.product.normalPrice * item.quantity with htp
  have hspec := bdFold_spec tp item.quantity discounts (none, 0)
  have hunf : getBestProductDiscount discounts item =
      (discounts.foldl (bdStep tp item.quantity) (none, 0)).1 := rfl
  refine ⟨?_, ?_, by decide⟩
  · constructor
    · intro hnone d hd hdsk
      rcases hspec with ⟨heq, hb⟩ | ⟨pre, d', post, hl, hsk, hgt, hres, hpre, hpost⟩
      · simpa using hb d hd hdsk
      · rw [hunf, hres] at hnone
        cases hnone
    · intro hall
      rcases hspec with ⟨heq, hb⟩ | ⟨pre, d', post, hl, hsk, hgt, hres, hpre, hpost⟩
      · rw [hunf, heq]
      · have hmem : d' ∈ discounts := by rw [hl]; exact List.mem_append_right _ (List.mem_cons_self _ _)
        have := hall d' hmem hsk
        simp only at hgt
        exact absurd hgt (not_lt.mpr this)
  · intro b hb
    rcases hspec with ⟨heq, _⟩ | ⟨pre, d', post, hl, hsk, hgt, hres, hpre, hpost⟩
    · rw [hunf, heq] at hb
      cases hb
    · rw [hunf, hres] at hb
      simp only [Option.some.injEq] at hb
      subst hb
      simp only at hgt
      have hmem : d' ∈ discounts := by
        rw [hl]; exact List.mem_append_right _ (List.mem_cons_self _ _)
      refine ⟨hmem, hsk, rfl, hgt, ?_, pre, post, hl, hpre⟩
      intro d hd hdsk
      rw [hl] at hd
      rcases List.mem_append.mp hd with h | h
      · exact le_of_lt (hpre d h hdsk)
      · rcases List.mem_cons.mp h with h | h
        · subst h; exact le_refl _
        · exact hpost d h hdsk


end DiscountService

/-- Witness for C6 at scenario A: the sitewide 10% discount is selected,
its computed amount is positive and equals the amount formula on the line
total. -/
theorem claimC6_bestDiscount_witness :
    bestC6.discount ∈ [discC6] ∧ 0 < bestC6.calculatedAmount ∧
    bestC6.calculatedAmount = DiscountService.bdAmount
      (orPrice itemC6.product.offerPrice itemC6.product.normalPrice * itemC6.quantity)
      itemC6.quantity bestC6.discount := by
  have h := (DiscountService.claimC6_bestDiscount [discC6] itemC6).2.1 bestC6 (by decide)
  exact ⟨h.1, h.2.2.2.1, h.2.2.1⟩

/-! ### C8 — Discount Resolution scope and eligibility -/

namespace DiscountService

theorem discountOrderCmp_total (a b : Discount) (h : discountOrderCmp a b = false) :
    discountOrderCmp b a = true := by
  simp only [discountOrderCmp, Bool.or_eq_true, Bool.and_eq_true, decide_eq_true_eq]
  rcases lt_trichotomy a.discountValue b.discountValue with hlt | heq | hgt
  · left; exact hlt
  · right
    refine ⟨heq.symm, ?_⟩
    by_contra hno
    have : discountOrderCmp a b = true := by
      simp only [discountOrderCmp, Bool.or_eq_true, Bool.and_eq_true, decide_eq_true_eq]
      right
      exact ⟨heq, by omega⟩
    rw [h] at this
    cases this
  · exfalso
    have : discountOrderCmp a b = true := by
      simp only [discountOrderCmp, Bool.or_eq_true, Bool.and_eq_true, decide_eq_true_eq]
      left; exact hgt
    rw [h] at this
    cases this

theorem discountOrderCmp_trans (a b c : Discount) (hab : discountOrderCmp a b = true)
    (hbc : discountOrderCmp b c = true) : discountOrderCmp a c = true := by
  simp only [discountOrderCmp, Bool.or_eq_true, Bool.and_eq_true, decide_eq_true_eq] at *
  rcases hab with h1 | ⟨h1, h1c⟩ <;> rcases hbc with h2 | ⟨h2, h2c⟩
  · left; exact lt_trans h2 h1
  · left; rw [h2] at h1; exact h1
  · left; rw [h1]; exact h2
  · right; exact ⟨h1.trans h2, le_trans h2c h1c⟩

/-- Claim C8 counterexample: the claim says `getProductDiscounts` returns
exactly the discounts whose scope matches the product id, its category id,
its subcategory id, or is sitewide.  The Prisma `where` clause compares the
discount's scope fields against the product's fields with null-propagating
equality, so for `dbC8` — product "p1" with NO subcategory, and a discount
scoped solely to a DIFFERENT product "p2" (category and subcategory unset)
— the `{subcategoryId: null}` branch matches and the foreign discount is
returned even though its scope does not match "p1" and it is not
sitewide. -/
theorem claimC8_counterexample :
    getProductDiscounts dbC8 "p1" none = .ok [discC8] ∧
    discC8.productId = some "p2" ∧
    dbC8.products.find? (fun p => decide (p.id = "p1")) = some prodC8 ∧
    ¬ specScopeMatches prodC8 discC8 := by
  refine ⟨by decide, by decide, by decide, by decide⟩

/-- Claim C8, amended: `getProductDiscounts` returns exactly the discounts
of the table that pass the code's candidate filter and the per-user
eligibility filter, ordered by discountValue descending then recency; for a
product whose category id AND subcategory id are both set, the candidate
filter is exactly the claimed predicate — scope matches the product id, its
category id, its subcategory id, or is sitewide — conjoined with `isActive`
and the activity window (when a scope field of the product is unset, the
null-propagating comparison also admits discounts whose same field is
unset, as the counterexample shows); and when no user id is supplied the
user-role and per-user-limit checks are skipped entirely, leaving only the
global usage cap. -/
theorem claimC8_productDiscounts_amended (db : DB) (pid : String) (uid : Option String)
    (product : Product)
    (hp : db.products.find? (fun p => decide (p.id = pid)) = some product)
    (l : List Discount)
    (hl : getProductDiscounts db pid uid = .ok l) :
    (∀ d, d ∈ l ↔ d ∈ db.discounts ∧ candidateFilter product pid db.now d = true ∧
        eligibleForUser db uid d = true) ∧
    l.Pairwise (fun a b => discountOrderCmp a b = true) ∧
    (product.categoryId.isSome = true → product.subcategoryId.isSome = true →
      ∀ d, candidateFilter product pid db.now d = true ↔
        (specScopeMatches product d ∧ d.isActive = true ∧
          d.validFrom ≤ db.now ∧ db.now ≤ d.validUntil)) ∧
    (∀ d, eligibleForUser db none d =
      (if natTruthy d.usageLimit then decide (d.usedCount < d.usageLimit.getD 0) else true)) := by
  have hpid : product.id = pid := by
    have := List.find?_some hp
    simpa using this
  subst hpid
  unfold getProductDiscounts at hl
  rw [hp] at hl
  simp only [Except.ok.injEq] at hl
  subst hl
  refine ⟨?_, ?_, ?_, ?_⟩
  · intro d
    rw [List.mem_filter, mem_sortBy, List.mem_filter]
    tauto
  · exact (pairwise_sortBy discountOrderCmp discountOrderCmp_total discountOrderCmp_trans
      _).filter _
  · intro hc hs d
    obtain ⟨c, hc⟩ := Option.isSome_iff_exists.mp hc
    obtain ⟨s, hs⟩ := Option.isSome_iff_exists.mp hs
    simp only [candidateFilter, specScopeMatches, hc, hs, Bool.and_eq_true, Bool.or_eq_true,
      decide_eq_true_eq, Option.isSome_some]
    tauto
  · intro d
    simp [eligibleForUser, strTruthy]


end DiscountService

/-- Witness for C8 (amended) at `dbC8w`: a product with category and
subcategory both set and one sitewide discount — the discount is returned,
and its candidate-filter status coincides with the claimed scope
predicate. -/
theorem claimC8_productDiscounts_amended_witness :
    discC8w ∈ [discC8w] ∧
    (DiscountService.candidateFilter prodC8w "p1" dbC8w.now discC8w = true ↔
      (specScopeMatches prodC8w discC8w ∧ discC8w.isActive = true ∧
        discC8w.validFrom ≤ dbC8w.now ∧ dbC8w.now ≤ discC8w.validUntil)) := by
  have h := DiscountService.claimC8_productDiscounts_amended dbC8w "p1" none prodC8w
    (by decide) [discC8w] (by decide)
  exact ⟨((h.1 discC8w).mpr ⟨by decide, by decide, by decide⟩), h.2.2.1 (by decide) (by decide) discC8w⟩

/-! ### C3 — the effective (second) `calculateFinalAmountWithDiscounts` -/

namespace DiscountService

theorem calculateProductDiscount_noDiscount (db : DB) (pid : String) (uid : Option String)
    (pd : ProductDiscountResult)
    (h : calculateProductDiscount db pid uid = .ok pd)
    (hnd : pd.hasDiscount = false) : pd.discountAmount = 0 := by
  unfold calculateProductDiscount at h
  cases hf : db.products.find? (fun p => decide (p.id = pid)) with
  | none => rw [hf] at h; exact Except.noConfusion h
  | some product =>
    rw [hf] at h
    simp only at h
    cases hg : getProductDiscounts db pid uid with
    | error e => rw [hg, exceptBind_error] at h; exact Except.noConfusion h
    | ok ds =>
      rw [hg, exceptBind_ok] at h
      split at h
      · simp only [Except.ok.injEq] at h
        subst h
        rfl
      · simp only [Except.ok.injEq] at h
        subst h
        cases hnd

theorem productLevelDiscounts_sum (db : DB) (uid : Option String)
    (items : List ResolvedItem) (pr : ℚ × List AppliedFinal)
    (h : productLevelDiscounts db uid items = .ok pr) :
    pr.1 = (items.map
      (fun it => productDiscountAmount db it.product.id uid * it.quantity)).sum := by
  induction items generalizing pr with
  | nil =>
    unfold productLevelDiscounts at h
    simp only [Except.ok.injEq] at h
    subst h
    simp
  | cons it rest ih =>
    unfold productLevelDiscounts at h
    cases hpd : calculateProductDiscount db it.product.id uid with
    | error e => rw [hpd, exceptBind_error] at h; exact Except.noConfusion h
    | ok pd =>
      rw [hpd, exceptBind_ok] at h
      cases hrest : productLevelDiscounts db uid rest with
      | error e => rw [hrest, exceptBind_error] at h; exact Except.noConfusion h
      | ok pr' =>
        rw [hrest, exceptBind_ok] at h
        obtain ⟨ra, rap⟩ := pr'
        simp only at h
        have hra := ih (ra, rap) hrest
        simp only at hra
        have hamt : productDiscountAmount db it.product.id uid = pd.discountAmount := by
          unfold productDiscountAmount
          rw [hpd]
        split at h
        · simp only [Except.ok.injEq] at h
          subst h
          simp only [List.map_cons, List.sum_cons]
          rw [hamt, hra]
        · rename_i hnd
          simp only [Except.ok.injEq] at h
          subst h
          simp only [List.map_cons, List.sum_cons]
          rw [hamt, hra]
          have : pd.discountAmount = 0 :=
            calculateProductDiscount_noDiscount db it.product.id uid pd hpd
              (by simpa using hnd)
          rw [this]
          ring

/-- Claim C3 (confirmed): class `DiscountService` defines
`calculateFinalAmountWithDiscounts` twice; under JavaScript class semantics
the SECOND definition (embedded as `calculateFinalAmountWithDiscounts`
here) is the one in effect, and it is what
`orderService.verifyAndCreateOrder` — the order-confirmation path —
invokes.  When the supplied coupon code validates successfully, the
effective function applies BOTH reductions: its (pre-rounding)
`totalDiscount` equals the coupon's amount plus, for each item, that item's
best per-unit product-discount amount multiplied by the item's quantity.
The last two conjuncts exhibit the divergence from the shadowed first
definition at a concrete cart (70 = 50 coupon + 10·2 product-level versus
the first definition's coupon-only 50). -/
theorem claimC3_effectiveFinalCombines (db : DB) (cartData : CartData) (uid : Option String)
    (code : Option String) (hcode : strTruthy code = true)
    (resolved : List ResolvedItem)
    (hres : resolveCartItems db cartData.cartItems = .ok resolved)
    (vd : ValidatedDiscount)
    (hvd : (validateDiscount db (code.getD "") uid
      (resolvedSubtotal resolved)).discount = some vd)
    (hvalid : (validateDiscount db (code.getD "") uid
      (resolvedSubtotal resolved)).isValid = true)
    (r : FinalAmountResult)
    (hr : calculateFinalAmountWithDiscountsRaw db cartData uid code = .ok r) :
    r.data.totalDiscount = vd.discountAmount +
      (resolved.map
        (fun it => productDiscountAmount db it.product.id uid * it.quantity)).sum ∧
    ((calculateFinalAmountWithDiscounts dbC3 cartDataC3 none (some "SAVE50")).map
      (fun x => x.data.totalDiscount)) = .ok 70 ∧
    ((calculateFinalAmountWithDiscountsFirst dbC3 cartDataC3 none (some "SAVE50")).map
      (fun x => x.data.totalDiscount)) = .ok 50 := by
  refine ⟨?_, by decide, by decide⟩
  unfold calculateFinalAmountWithDiscountsRaw at hr
  rw [hres, exceptBind_ok] at hr
  cases hpp : productLevelDiscounts db uid resolved with
  | error e =>
    rw [hpp] at hr
    simp only [hcode, if_true] at hr
    rw [exceptBind_error] at hr
    exact Except.noConfusion hr
  | ok pp =>
    rw [hpp] at hr
    simp only [hcode, if_true, hvd, hvalid, exceptBind_ok, Except.ok.injEq] at hr
    subst hr
    simp only
    rw [productLevelDiscounts_sum db uid resolved pp hpp]


/-- Witness for C3 at `dbC3`: coupon SAVE50 (50) plus the sitewide 10%
product discount on a quantity-2 line priced 100 (2 · 10) gives 70. -/
theorem claimC3_effectiveFinalCombines_witness :
    finalResC3.data.totalDiscount = vdC3.discountAmount +
      (resolvedC3.map
        (fun it => productDiscountAmount dbC3 it.product.id none * it.quantity)).sum :=
  (claimC3_effectiveFinalCombines dbC3 cartDataC3 none (some "SAVE50") (by decide)
    resolvedC3 (by decide) vdC3 (by decide) (by decide) finalResC3 (by decide)).1

end DiscountService

end Kachidham

namespace Kachidham

/-- `List.find?` after a key-preserving in-place map update: the found row is
the original row with the update applied. -/
theorem find_update (l : List Discount) (did : String) (f : Discount → Discount)
    (hid : ∀ x, (f x).id = x.id) :
    ((l.map (fun d => if d.id = did then f d else d)).find?
      (fun x => decide (x.id = did))) =
    (l.find? (fun x => decide (x.id = did))).map f := by
  induction l with
  | nil => rfl
  | cons d t ih =>
    by_cases h : d.id = did
    · simp only [List.map_cons, if_pos h, List.find?_cons]
      simp [hid, h]
    · simp only [List.map_cons, if_neg h, List.find?_cons]
      simp only [h, decide_eq_true_eq]
      simp [ih]

namespace DiscountService

/-- A successful `applyDiscount` conses exactly one usage row carrying the
requested (discount, order, user) triple, and updates only the matching
discount row, incrementing `usedCount` by 1 and `totalDiscounts` by the
deducted amount. -/
theorem applyDiscount_success (db : DB) (o d u : String)
    (db' : DB) (usage : DiscountUsage)
    (h : applyDiscount db o d u = .ok (db', usage)) :
    db'.discountUsages = usage :: db.discountUsages ∧
    usage.discountId = d ∧ usage.orderId = o ∧ usage.userId = u ∧
    db'.discounts = db.discounts.map (fun x => if x.id = d then
      { x with usedCount := x.usedCount + 1
               totalDiscounts := x.totalDiscounts + usage.discountAmount } else x) ∧
    (discountById db' d).map (fun x => x.usedCount) =
      (discountById db d).map (fun x => x.usedCount + 1) ∧
    (discountById db' d).map (fun x => x.totalDiscounts) =
      (discountById db d).map (fun x => x.totalDiscounts + usage.discountAmount) := by
  unfold applyDiscount at h
  cases hf : db.discounts.find? (fun x => decide (x.id = d)) with
  | none => rw [hf] at h; exact Except.noConfusion h
  | some disc =>
    rw [hf] at h
    replace h : applyDiscountFound db o d u disc = .ok (db', usage) := h
    unfold applyDiscountFound at h
    split at h
    · exact Except.noConfusion h
    · split at h
      · exact Except.noConfusion h
      · split at h
        · exact Except.noConfusion h
        · split at h
          · exact Except.noConfusion h
          · split at h
            · exact Except.noConfusion h
            · cases ho : db.orders.find? (fun x => decide (x.id = o)) with
              | none => rw [ho] at h; exact Except.noConfusion h
              | some order =>
                rw [ho] at h
                replace h : applyDiscountWithOrder db o d u disc order = .ok (db', usage) := h
                unfold applyDiscountWithOrder at h
                split at h
                · exact Except.noConfusion h
                · split at h
                  · exact Except.noConfusion h
                  · simp only [Except.ok.injEq, Prod.mk.injEq] at h
                    obtain ⟨hdb, husage⟩ := h
                    subst hdb
                    subst husage
                    have hmap : ∀ (dbx : DB), dbx.discounts = db.discounts →
                        ∀ g : Discount → Discount,
                        (updateDiscountRow dbx d g).discounts =
                          db.discounts.map (fun x => if x.id = d then g x else x) := by
                      intro dbx hx g
                      unfold updateDiscountRow
                      rw [hx]
                    refine ⟨rfl, rfl, rfl, rfl, ?_, ?_, ?_⟩
                    · rw [hmap]
                      rfl
                    · unfold discountById
                      rw [hmap]
                      · rw [find_update]
                        · rw [hf]
                          rfl
                        · intro x
                          rfl
                      · rfl
                    · unfold discountById
                      rw [hmap]
                      · rw [find_update]
                        · rw [hf]
                          rfl
                        · intro x
                          rfl
                      · rfl

/-- `applyDiscount` rejects a (discount, order) pair that already has a
usage row: the "already been applied" guard fires before any write. -/
theorem applyDiscount_duplicate_rejected (db : DB) (o d u : String)
    (hp : pairMem db d o = true) :
    isOkB (applyDiscount db o d u) = false := by
  unfold applyDiscount
  cases hf : db.discounts.find? (fun x => decide (x.id = d)) with
  | none => rfl
  | some disc =>
    show isOkB (applyDiscountFound db o d u disc) = false
    have hsome : (db.discountUsages.find?
        (fun du => decide (du.discountId = d) && decide (du.orderId = o))).isSome = true := by
      rw [List.find?_isSome]
      unfold pairMem at hp
      rw [List.any_eq_true] at hp
      exact hp
    unfold applyDiscountFound
    split
    · rfl
    split
    · rfl
    split
    · rfl
    split
    · rfl
    rfl

end DiscountService

namespace OrderService

/-- One recording step never removes an existing (discount, order) usage
pair: `discountUsageCreate` only conses a row and `updateDiscountRow`
leaves `discountUsages` unchanged. -/
theorem recordStep_pairMem_mono (u o : String) (db : DB)
    (ad : DiscountService.AppliedFinal) (did oid : String)
    (hp : pairMem db did oid = true) :
    pairMem (recordStep u o db ad) did oid = true := by
  unfold recordStep
  split
  · cases hc : discountUsageCreate db
        { discountId := ad.discountId.getD "", userId := u, orderId := o,
          discountAmount := ad.amount } with
    | error e => exact hp
    | ok db2 =>
      unfold discountUsageCreate at hc
      split at hc
      · exact Except.noConfusion hc
      · simp only [Except.ok.injEq] at hc
        subst hc
        unfold pairMem at hp ⊢
        simp only [DiscountService.updateDiscountRow]
        simp only [List.any_cons, Bool.or_eq_true]
        right
        exact hp
  · exact hp

/-- The whole recording fold never removes an existing usage pair. -/
theorem fold_pairMem_mono (u o : String) (ads : List DiscountService.AppliedFinal)
    (db : DB) (did oid : String) (hp : pairMem db did oid = true) :
    pairMem (ads.foldl (recordStep u o) db) did oid = true := by
  induction ads generalizing db with
  | nil => exact hp
  | cons ad t ih =>
    simp only [List.foldl]
    exact ih _ (recordStep_pairMem_mono u o db ad did oid hp)

/-- After a recording step for an applied discount with a truthy id, the
(discount, order) usage pair is present — whether the step created it or the
create was rejected because it already existed. -/
theorem recordStep_establishes (u o : String) (db : DB)
    (ad : DiscountService.AppliedFinal) (hstr : strTruthy ad.discountId = true) :
    pairMem (recordStep u o db ad) (ad.discountId.getD "") o = true := by
  unfold recordStep
  rw [if_pos hstr]
  cases hc : discountUsageCreate db
      { discountId := ad.discountId.getD "", userId := u, orderId := o,
        discountAmount := ad.amount } with
  | error e =>
    unfold discountUsageCreate at hc
    split at hc
    · rename_i hcond
      exact hcond
    · exact Except.noConfusion hc
  | ok db2 =>
    unfold discountUsageCreate at hc
    split at hc
    · exact Except.noConfusion hc
    · simp only [Except.ok.injEq] at hc
      subst hc
      unfold pairMem
      simp only [DiscountService.updateDiscountRow]
      simp only [List.any_cons, Bool.or_eq_true]
      left
      simp

/-- When every applied discount's (discount, order) pair already has a usage
row, the recording fold is the identity: each create is rejected by the
unique constraint and the `catch` skips the counter increments. -/
theorem fold_noop (u o : String) (ads : List DiscountService.AppliedFinal) (db : DB)
    (hall : ∀ ad ∈ ads, strTruthy ad.discountId = true →
      pairMem db (ad.discountId.getD "") o = true) :
    ads.foldl (recordStep u o) db = db := by
  induction ads with
  | nil => rfl
  | cons ad t ih =>
    simp only [List.foldl]
    have hstep : recordStep u o db ad = db := by
      unfold recordStep
      split
      · rename_i hstr
        have hp := hall ad (List.mem_cons_self _ _) hstr
        cases hc : discountUsageCreate db
            { discountId := ad.discountId.getD "", userId := u, orderId := o,
              discountAmount := ad.amount } with
        | error e => rfl
        | ok db2 =>
          unfold discountUsageCreate at hc
          split at hc
          · exact Except.noConfusion hc
          · rename_i hcond
            exact absurd hp hcond
      · rfl
    rw [hstep]
    exact ih (fun x hx => hall x (List.mem_cons_of_mem _ hx))

/-- After the recording fold, every applied discount with a truthy id has
its (discount, order) usage pair present. -/
theorem fold_establishes (u o : String) (ads : List DiscountService.AppliedFinal)
    (db : DB) (ad : DiscountService.AppliedFinal) (hmem : ad ∈ ads)
    (hstr : strTruthy ad.discountId = true) :
    pairMem (ads.foldl (recordStep u o) db) (ad.discountId.getD "") o = true := by
  induction ads generalizing db with
  | nil => cases hmem
  | cons hd t ih =>
    simp only [List.foldl]
    rcases List.mem_cons.mp hmem with h | h
    · subst h
      exact fold_pairMem_mono u o t _ _ _ (recordStep_establishes u o db ad hstr)
    · exact ih _ h

/-- Running the order-confirmation recording loop a second time with the same
order and applied-discount list changes nothing: every create hits the
unique (discountId, orderId) constraint and the counter increments are
skipped, so nothing is double-counted. -/
theorem recordDiscountUsages_idem (db : DB) (u o : String)
    (ads : List DiscountService.AppliedFinal) :
    recordDiscountUsages (recordDiscountUsages db u o ads) u o ads =
      recordDiscountUsages db u o ads := by
  unfold recordDiscountUsages
  exact fold_noop u o ads _
    (fun ad hmem hstr => fold_establishes u o ads db ad hmem hstr)

end OrderService

namespace DiscountService

/-- Claim C9 (confirmed; the unique (discountId, orderId) constraint is
modelled from the spec because the Prisma schema is not under `src/`):
(1) a successful `applyDiscount` creates exactly one `DiscountUsage` row —
the new `discountUsages` list is the created row consed onto the old one —
carrying the requested (discount, order, user) triple, and increments the
discount's `usedCount` by 1 and `totalDiscounts` by the deducted amount;
(2) a second call for a (discount, order) pair that already has a usage row
is rejected by the "already been applied" guard rather than double-counted;
(3) the usage-recording loop of `verifyAndCreateOrder` is idempotent: a
second run over the same applied discounts for the same order leaves the
database unchanged, because each create is rejected by the unique
(discountId, orderId) constraint and the counter increments are skipped. -/
theorem claimC9_usageRecording :
    (∀ (db : DB) (o d u : String) (db' : DB) (usage : DiscountUsage),
      applyDiscount db o d u = .ok (db', usage) →
      db'.discountUsages = usage :: db.discountUsages ∧
      usage.discountId = d ∧ usage.orderId = o ∧ usage.userId = u ∧
      (discountById db' d).map (fun x => x.usedCount) =
        (discountById db d).map (fun x => x.usedCount + 1) ∧
      (discountById db' d).map (fun x => x.totalDiscounts) =
        (discountById db d).map (fun x => x.totalDiscounts + usage.discountAmount)) ∧
    (∀ (db : DB) (o d u : String), pairMem db d o = true →
      isOkB (applyDiscount db o d u) = false) ∧
    (∀ (db : DB) (u o : String) (ads : List AppliedFinal),
      OrderService.recordDiscountUsages (OrderService.recordDiscountUsages db u o ads) u o ads =
        OrderService.recordDiscountUsages db u o ads) := by
  refine ⟨?_, ?_, ?_⟩
  · intro db o d u db' usage h
    obtain ⟨h1, h2, h3, h4, _, h6, h7⟩ := applyDiscount_success db o d u db' usage h
    exact ⟨h1, h2, h3, h4, h6, h7⟩
  · exact applyDiscount_duplicate_rejected
  · exact fun db u o ads => OrderService.recordDiscountUsages_idem db u o ads

end DiscountService

/-- Witness for C9 at `dbC9`: `applyDiscount` succeeds once, producing
`dbC9'` with the single usage row `usageC9` and the incremented counters,
and the second call on `dbC9'` for the same (discount, order) pair is
rejected. -/
theorem claimC9_usageRecording_witness :
    DiscountService.applyDiscount dbC9 "o1" "d1" "u1" = .ok (dbC9', usageC9) ∧
    dbC9'.discountUsages = usageC9 :: dbC9.discountUsages ∧
    (discountById dbC9' "d1").map (fun x => x.usedCount) =
      (discountById dbC9 "d1").map (fun x => x.usedCount + 1) ∧
    pairMem dbC9' "d1" "o1" = true ∧
    isOkB (DiscountService.applyDiscount dbC9' "o1" "d1" "u1") = false := by
  have hok : DiscountService.applyDiscount dbC9 "o1" "d1" "u1" = .ok (dbC9', usageC9) := by
    decide
  have hpm : pairMem dbC9' "d1" "o1" = true := by decide
  have h := DiscountService.claimC9_usageRecording
  exact ⟨hok, (h.1 dbC9 "o1" "d1" "u1" dbC9' usageC9 hok).1,
    (h.1 dbC9 "o1" "d1" "u1" dbC9' usageC9 hok).2.2.2.2.1,
    hpm, h.2.1 dbC9' "o1" "d1" "u1" hpm⟩

end Kachidham
